import Mathlib

/-!
Formal model of the nvidia-vaapi-driver decode pipeline.

Shallow embedding of the relevant functions of `src/vabackend.c` in Lean 4.
C machine integers are modelled as `Nat` (or `Int` where a sentinel `-1`
occurs); C pointers that only matter as null/non-null become `Bool` or
`Option`; fallible external (CUDA/CUVID) calls are oracle `Bool`/`CUresult`
parameters; byte arrays become `List Nat`.
-/

/-- The VA-API status codes returned by the modelled entry points
(external ABI constants from `va.h`). -/
inductive VAStatus where
  | SUCCESS
  | ERROR_OPERATION_FAILED
  | ERROR_ALLOCATION_FAILED
  | ERROR_INVALID_CONFIG
  | ERROR_INVALID_CONTEXT
  | ERROR_INVALID_SURFACE
  | ERROR_INVALID_BUFFER
  | ERROR_INVALID_PARAMETER
  | ERROR_MAX_NUM_EXCEEDED
  | ERROR_UNSUPPORTED_PROFILE
  | ERROR_UNSUPPORTED_ENTRYPOINT
  | ERROR_UNSUPPORTED_RT_FORMAT
  | ERROR_UNSUPPORTED_MEMORY_TYPE
  | ERROR_DECODING_ERROR
  | ERROR_UNIMPLEMENTED
  deriving DecidableEq

/-- Result of a CUDA / CUVID vendor call: success or some error. -/
inductive CUresult where
  | success
  | error
  deriving DecidableEq

/-- `AppendableBuffer` from `vabackend.h`/`vabackend.c`: a growable byte
arena.  `buf = none` models a NULL `buf` pointer; `buf = some bytes` holds
the first `size` meaningful bytes (the remaining `allocated - size` bytes
of the C allocation are uninitialised and unobservable). -/
structure AppendableBuffer where
  buf : Option (List Nat)
  size : Nat
  allocated : Nat
  deriving DecidableEq

/-- A freshly zero-initialised `AppendableBuffer` (all-zero struct). -/
def emptyAB : AppendableBuffer := { buf := none, size := 0, allocated := 0 }

/-- The `while (ab->size + size > ab->allocated) ab->allocated += ab->allocated >> 1;`
loop of `appendBuffer` (vabackend.c lines 257-259).  `needed` is
`ab->size + size`.  For `allocated < 2` and `needed > allocated` the C loop
never terminates (`allocated >> 1` is 0); that case is unreachable for any
append sequence whose first chunk is nonempty, and the definition returns
`allocated` there so that it is total. -/
def growAlloc (needed : Nat) (allocated : Nat) : Nat :=
  if needed ≤ allocated then allocated
  else if allocated < 2 then allocated
  else growAlloc needed (allocated + allocated / 2)
termination_by needed - allocated
decreasing_by
  have h2 : 1 ≤ allocated / 2 := by omega
  omega

/-- `appendBuffer` (vabackend.c lines 251-267): on first use allocate
`size * 2` bytes; on overflow grow via `growAlloc` and copy the existing
content; then append the new bytes. -/
def appendBuffer (ab : AppendableBuffer) (data : List Nat) : AppendableBuffer :=
  match ab.buf with
  | none =>
      { buf := some data, size := data.length, allocated := data.length * 2 }
  | some content =>
      let alloc :=
        if ab.size + data.length > ab.allocated then
          growAlloc (ab.size + data.length) ab.allocated
        else ab.allocated
      { buf := some (content ++ data), size := ab.size + data.length, allocated := alloc }

theorem growAlloc_le (needed allocated : Nat) : allocated ≤ growAlloc needed allocated := by
  induction allocated using growAlloc.induct needed with
  | case1 a h => rw [growAlloc]; simp [h]
  | case2 a h h2 => rw [growAlloc]; simp [h, h2]
  | case3 a h h2 ih =>
      rw [growAlloc]
      simp only [if_neg h, if_neg h2]
      omega

theorem growAlloc_sufficient (needed allocated : Nat) :
    2 ≤ allocated → needed ≤ growAlloc needed allocated := by
  induction allocated using growAlloc.induct needed with
  | case1 a h => intro _; rw [growAlloc]; simp [h]
  | case2 a h hlt => intro h2; omega
  | case3 a h hlt ih =>
      intro h2
      rw [growAlloc]
      simp only [if_neg h, if_neg hlt]
      exact ih (by omega)

theorem growAlloc_half_growth (needed allocated : Nat) (h2 : 2 ≤ allocated)
    (hover : allocated < needed) :
    allocated + allocated / 2 ≤ growAlloc needed allocated := by
  rw [growAlloc]
  simp only [if_neg (by omega : ¬ needed ≤ allocated), if_neg (by omega : ¬ allocated < 2)]
  exact growAlloc_le needed (allocated + allocated / 2)

theorem growAlloc_ge_two (needed allocated : Nat) (h2 : 2 ≤ allocated) :
    2 ≤ growAlloc needed allocated := le_trans h2 (growAlloc_le needed allocated)

/-- Well-formedness of an `AppendableBuffer` state as maintained by
`appendBuffer` for append sequences of nonempty chunks: the stored content
has exactly `size` bytes, fits in `allocated`, and `allocated ≥ 2` once a
first nonempty chunk has been appended. -/
def ABInv (st : AppendableBuffer) : Prop :=
  match st.buf with
  | none => st.size = 0 ∧ st.allocated = 0
  | some c => c.length = st.size ∧ st.size ≤ st.allocated ∧ 2 ≤ st.allocated

theorem ABInv_empty : ABInv emptyAB := by
  constructor <;> rfl

theorem appendBuffer_step (st : AppendableBuffer) (b : List Nat) (hb : b ≠ [])
    (hinv : ABInv st) :
    ABInv (appendBuffer st b)
    ∧ (appendBuffer st b).buf = some (st.buf.getD [] ++ b)
    ∧ (appendBuffer st b).size = st.size + b.length
    ∧ st.allocated ≤ (appendBuffer st b).allocated := by
  have hlen : 1 ≤ b.length := by
    cases b with
    | nil => exact absurd rfl hb
    | cons x xs => simp
  obtain ⟨sbuf, ssize, salloc⟩ := st
  cases sbuf with
  | none =>
      obtain ⟨hs, ha⟩ : ssize = 0 ∧ salloc = 0 := hinv
      subst hs; subst ha
      have e : appendBuffer ⟨none, 0, 0⟩ b = ⟨some b, b.length, b.length * 2⟩ := rfl
      rw [e]
      refine ⟨⟨rfl, ?_, ?_⟩, rfl, ?_, ?_⟩
      · show b.length ≤ b.length * 2
        omega
      · show 2 ≤ b.length * 2
        omega
      · show b.length = 0 + b.length
        omega
      · show 0 ≤ b.length * 2
        omega
  | some c =>
      obtain ⟨hc, hsa, h2⟩ : c.length = ssize ∧ ssize ≤ salloc ∧ 2 ≤ salloc := hinv
      by_cases hov : ssize + b.length > salloc
      · have hsuf := growAlloc_sufficient (ssize + b.length) salloc h2
        have hle := growAlloc_le (ssize + b.length) salloc
        have e : appendBuffer ⟨some c, ssize, salloc⟩ b
            = ⟨some (c ++ b), ssize + b.length, growAlloc (ssize + b.length) salloc⟩ := by
          simp [appendBuffer, hov]
        rw [e]
        refine ⟨⟨by simp [hc], hsuf, ?_⟩, rfl, rfl, hle⟩
        show 2 ≤ growAlloc (ssize + b.length) salloc
        omega
      · have e : appendBuffer ⟨some c, ssize, salloc⟩ b
            = ⟨some (c ++ b), ssize + b.length, salloc⟩ := by
          simp [appendBuffer, hov]
        rw [e]
        refine ⟨⟨by simp [hc], ?_, h2⟩, rfl, rfl, le_refl _⟩
        show ssize + b.length ≤ salloc
        omega

theorem foldl_appendBuffer (bs : List (List Nat)) :
    ∀ st : AppendableBuffer, (∀ b ∈ bs, b ≠ []) → ABInv st →
      ABInv (bs.foldl appendBuffer st)
      ∧ (bs.foldl appendBuffer st).buf.getD [] = st.buf.getD [] ++ bs.flatten
      ∧ (bs.foldl appendBuffer st).size = st.size + bs.flatten.length := by
  induction bs with
  | nil => intro st _ hinv; simp [hinv]
  | cons b rest ih =>
      intro st hne hinv
      have hb : b ≠ [] := hne b (by simp)
      have hstep := appendBuffer_step st b hb hinv
      have hrest := ih (appendBuffer st b) (fun x hx => hne x (by simp [hx])) hstep.1
      refine ⟨hrest.1, ?_, ?_⟩
      · simp only [List.foldl_cons, List.flatten_cons]
        rw [hrest.2.1, hstep.2.1]
        simp [List.append_assoc]
      · simp only [List.foldl_cons, List.flatten_cons]
        rw [hrest.2.2, hstep.2.2.1]
        simp [Nat.add_assoc]

theorem growAlloc_three_four : growAlloc 4 3 = 4 := by
  rw [growAlloc]; norm_num; rw [growAlloc]; norm_num

theorem growAlloc_two_three : growAlloc 3 2 = 3 := by
  rw [growAlloc]; norm_num; rw [growAlloc]; norm_num

/-- C4 (counterexample): the growth factor of `appendBuffer` is not always
at least 50 percent.  After appending `[1]` and then `[2, 3]` the capacity is
3; appending one more byte overflows and grows the capacity only to 4,
and `2 * 4 < 3 * 3`, i.e. the relative growth is below 50 percent. -/
theorem claim_C4_counterexample :
    (appendBuffer (appendBuffer emptyAB [1]) [2, 3]).allocated = 3
    ∧ (appendBuffer (appendBuffer emptyAB [1]) [2, 3]).size + ([4] : List Nat).length
        > (appendBuffer (appendBuffer emptyAB [1]) [2, 3]).allocated
    ∧ (appendBuffer (appendBuffer (appendBuffer emptyAB [1]) [2, 3]) [4]).allocated = 4
    ∧ 2 * (appendBuffer (appendBuffer (appendBuffer emptyAB [1]) [2, 3]) [4]).allocated
        < 3 * (appendBuffer (appendBuffer emptyAB [1]) [2, 3]).allocated := by
  have e1 : appendBuffer emptyAB [1] = ⟨some [1], 1, 2⟩ := rfl
  have e2 : appendBuffer (⟨some [1], 1, 2⟩ : AppendableBuffer) [2, 3]
      = ⟨some [1, 2, 3], 3, 3⟩ := by
    simp [appendBuffer, growAlloc_two_three]
  have e3 : appendBuffer (⟨some [1, 2, 3], 3, 3⟩ : AppendableBuffer) [4]
      = ⟨some [1, 2, 3, 4], 4, 4⟩ := by
    simp [appendBuffer, growAlloc_three_four]
  rw [e1, e2, e3]
  refine ⟨rfl, by norm_num, rfl, by norm_num⟩

/-- C4 (amended): for every sequence of nonempty appends starting from the
empty `AppendableBuffer`, after each append the first `size` bytes of `buf`
are the concatenation of all bytes appended so far and `allocated ≥ size`;
on overflow the capacity grows by at least `allocated / 2` (50 percent
rounded down, which can be less than an exact 50 percent when `allocated`
is odd) and never shrinks.  (The statement over `bs.foldl` covers the state
after each append, since every prefix of a valid append sequence is itself
a valid append sequence.) -/
theorem claim_C4_appendBuffer_amended (bs : List (List Nat))
    (hne : ∀ b ∈ bs, b ≠ []) :
    ((bs.foldl appendBuffer emptyAB).buf.getD [] = bs.flatten
      ∧ (bs.foldl appendBuffer emptyAB).size = bs.flatten.length
      ∧ (bs.foldl appendBuffer emptyAB).size ≤ (bs.foldl appendBuffer emptyAB).allocated)
    ∧ (∀ b : List Nat, b ≠ [] →
        (bs.foldl appendBuffer emptyAB).allocated
          ≤ (appendBuffer (bs.foldl appendBuffer emptyAB) b).allocated)
    ∧ (∀ b : List Nat, b ≠ [] →
        (bs.foldl appendBuffer emptyAB).size + b.length
            > (bs.foldl appendBuffer emptyAB).allocated →
        (bs.foldl appendBuffer emptyAB).allocated
            + (bs.foldl appendBuffer emptyAB).allocated / 2
          ≤ (appendBuffer (bs.foldl appendBuffer emptyAB) b).allocated) := by
  obtain ⟨hinv, hcontent, hsize⟩ := foldl_appendBuffer bs emptyAB hne ABInv_empty
  set st := bs.foldl appendBuffer emptyAB with hst
  have hsle : st.size ≤ st.allocated := by
    match hbuf : st.buf with
    | none =>
        have : st.size = 0 ∧ st.allocated = 0 := by
          have := hinv; rw [ABInv, hbuf] at this; exact this
        omega
    | some c =>
        have : c.length = st.size ∧ st.size ≤ st.allocated ∧ 2 ≤ st.allocated := by
          have := hinv; rw [ABInv, hbuf] at this; exact this
        omega
  refine ⟨⟨by simpa [emptyAB] using hcontent, by simpa [emptyAB] using hsize, hsle⟩, ?_, ?_⟩
  · intro b hb
    exact (appendBuffer_step st b hb hinv).2.2.2
  · intro b hb hover
    match hbuf : st.buf with
    | none =>
        have h0 : st.size = 0 ∧ st.allocated = 0 := by
          have := hinv; rw [ABInv, hbuf] at this; exact this
        obtain ⟨sbuf, ssize, salloc⟩ := st
        simp only at hbuf h0
        subst hbuf
        obtain ⟨h1, h2⟩ := h0
        subst h1; subst h2
        show 0 + 0 / 2 ≤ b.length * 2
        omega
    | some c =>
        have h3 : c.length = st.size ∧ st.size ≤ st.allocated ∧ 2 ≤ st.allocated := by
          have := hinv; rw [ABInv, hbuf] at this; exact this
        obtain ⟨sbuf, ssize, salloc⟩ := st
        simp only at hbuf h3 hover
        subst hbuf
        have e : appendBuffer ⟨some c, ssize, salloc⟩ b
            = ⟨some (c ++ b), ssize + b.length, growAlloc (ssize + b.length) salloc⟩ := by
          simp [appendBuffer, hover]
        rw [e]
        show salloc + salloc / 2 ≤ growAlloc (ssize + b.length) salloc
        exact growAlloc_half_growth (ssize + b.length) salloc h3.2.2 (by omega)

/-- C4 (witness): the amended theorem applied to the concrete append
sequence `[[1], [2]]`. -/
theorem claim_C4_witness :
    (([[1], [2]] : List (List Nat)).foldl appendBuffer emptyAB).buf.getD [] = [1, 2] :=
  (claim_C4_appendBuffer_amended [[1], [2]] (by decide)).1.1

/-- Vendor surface formats (`cudaVideoSurfaceFormat` from the NVIDIA
headers, an external contract). -/
inductive cudaVideoSurfaceFormat where
  | NV12
  | P016
  | YUV444
  | YUV444_16Bit
  deriving DecidableEq

/-- Vendor chroma formats (`cudaVideoChromaFormat`). -/
inductive cudaVideoChromaFormat where
  | Monochrome
  | C420
  | C422
  | C444
  deriving DecidableEq

/-- The fields of `CUVIDPICPARAMS` that `vabackend.c` reads or writes
directly (`CurrPicIdx`, `bottom_field_flag`, `second_field`); the codec
handlers fill the rest, which the modelled claims never inspect. -/
structure CUVIDPICPARAMS where
  currPicIdx : Int
  bottomFieldFlag : Bool
  secondField : Bool
  deriving DecidableEq

/-- The all-zero `CUVIDPICPARAMS` produced by `memset` in `nvBeginPicture`. -/
def zeroPicParams : CUVIDPICPARAMS := { currPicIdx := 0, bottomFieldFlag := false, secondField := false }

/-- `NVSurface` (vabackend.h): one decodable/exportable frame slot.
`context` holds the id of the owning `NVContext` (`none` = NULL pointer);
`backingImage` models whether the backing-image pointer is non-null. -/
structure NVSurface where
  width : Nat
  height : Nat
  format : cudaVideoSurfaceFormat
  pictureIdx : Int
  bitDepth : Nat
  context : Option Nat
  chromaFormat : cudaVideoChromaFormat
  progressiveFrame : Bool
  topFieldFirst : Bool
  secondField : Bool
  decodeFailed : Bool
  resolving : Bool
  backingImage : Bool
  deriving DecidableEq

/-- Modelled from the spec: `SURFACE_QUEUE_SIZE` is defined in
`vabackend.h`, which is not part of the sources; the spec fixes only that
the resolve queue is a ring of fixed capacity `SURFACE_QUEUE_SIZE`.  The
concrete value is immaterial to the claims proved here (the ordering claim
is proved for an arbitrary positive capacity). -/
def SURFACE_QUEUE_SIZE : Nat := 16

/-- The fields of `NVContext` (vabackend.h) that the modelled entry points
touch.  The resolve queue stores surface values (the C code stores
`NVSurface*` pointers). -/
structure NVContext where
  currentPictureId : Nat
  surfaceCount : Nat
  renderTarget : Option NVSurface
  pPicParams : CUVIDPICPARAMS
  bitstreamBuffer : AppendableBuffer
  sliceOffsets : AppendableBuffer
  surfaceQueue : List (Option NVSurface)
  surfaceQueueReadIdx : Nat
  surfaceQueueWriteIdx : Nat
  exiting : Bool
  deriving DecidableEq

/-- Result of one `nvBeginPicture` call: the VA status, the mutated
Context and target Surface, and whether `detachBackingImageFromSurface`
was invoked. -/
structure BeginOut where
  status : VAStatus
  ctx : NVContext
  surface : NVSurface
  detachCalled : Bool
  deriving DecidableEq

/-- `nvBeginPicture` (vabackend.c lines 1153-1185), given the calling
Context (id `ctxId`) and the already-looked-up target Surface.  If the
Surface belongs to a different Context, detach its backing image (when one
exists) and reset `pictureIdx` to -1; a Surface with `pictureIdx = -1`
gets the next free index `currentPictureId++`, failing with
`MAX_NUM_EXCEEDED` when `currentPictureId == surfaceCount`; then the
Surface is marked resolving, the scratch picture parameters are zeroed and
`CurrPicIdx` is set. -/
def nvBeginPicture (ctxId : Nat) (nvCtx : NVContext) (surface : NVSurface) : BeginOut :=
  let rebinding := surface.context ≠ none ∧ surface.context ≠ some ctxId
  let detachCalled := if rebinding then surface.backingImage else false
  let surface1 := if rebinding then { surface with backingImage := false, pictureIdx := -1 } else surface
  if surface1.pictureIdx = -1 ∧ nvCtx.currentPictureId = nvCtx.surfaceCount then
    { status := .ERROR_MAX_NUM_EXCEEDED, ctx := nvCtx, surface := surface1, detachCalled := detachCalled }
  else
    let surface2 :=
      if surface1.pictureIdx = -1 then
        { surface1 with pictureIdx := (nvCtx.currentPictureId : Int) }
      else surface1
    let nvCtx1 :=
      if surface1.pictureIdx = -1 then
        { nvCtx with currentPictureId := nvCtx.currentPictureId + 1 }
      else nvCtx
    let surface3 := { surface2 with resolving := true, progressiveFrame := true }
    let nvCtx2 := { nvCtx1 with
      pPicParams := { zeroPicParams with currPicIdx := surface3.pictureIdx },
      renderTarget := some surface3 }
    { status := .SUCCESS, ctx := nvCtx2, surface := surface3, detachCalled := detachCalled }

/-- Result of one `nvEndPicture` call.  `surface` is the Context's render
target after the call (the C code mutates it through a pointer);
`signaled` records whether `pthread_cond_signal(&resolveCondition)` ran. -/
structure EndOut where
  status : VAStatus
  ctx : NVContext
  surface : Option NVSurface
  signaled : Bool
  deriving DecidableEq

/-- `nvEndPicture` (vabackend.c lines 1216-1252).  `pushOk`/`popOk` are
oracles for `cuCtxPushCurrent`/`cuCtxPopCurrent` and `decodeResult` for
`cuvidDecodePicture`.  The scratch appendable buffers are reset to size 0;
a decode error turns into `DECODING_ERROR` and sets `decodeFailed`, but
the target is enqueued on the resolve ring and the condition signalled in
every case that reaches the enqueue.  Returns `none` when
`renderTarget` is NULL (the C code would dereference a null pointer). -/
def nvEndPicture (ctxId : Nat) (nvCtx : NVContext) (pushOk popOk : Bool) (decodeResult : CUresult) : Option EndOut :=
  let nvCtxR := { nvCtx with
    bitstreamBuffer := { nvCtx.bitstreamBuffer with size := 0 },
    sliceOffsets := { nvCtx.sliceOffsets with size := 0 } }
  if pushOk = false then
    some { status := .ERROR_OPERATION_FAILED, ctx := nvCtxR, surface := nvCtxR.renderTarget, signaled := false }
  else if popOk = false then
    some { status := .ERROR_OPERATION_FAILED, ctx := nvCtxR, surface := nvCtxR.renderTarget, signaled := false }
  else
    let status : VAStatus := if decodeResult ≠ .success then .ERROR_DECODING_ERROR else .SUCCESS
    match nvCtxR.renderTarget with
    | none => none
    | some target =>
        let target1 := { target with
          context := some ctxId,
          topFieldFirst := !nvCtxR.pPicParams.bottomFieldFlag,
          secondField := nvCtxR.pPicParams.secondField,
          decodeFailed := decide (status ≠ .SUCCESS) }
        let nvCtx1 := { nvCtxR with
          renderTarget := some target1,
          surfaceQueue := nvCtxR.surfaceQueue.set nvCtxR.surfaceQueueWriteIdx (some target1),
          surfaceQueueWriteIdx :=
            if nvCtxR.surfaceQueueWriteIdx + 1 ≥ SURFACE_QUEUE_SIZE then 0
            else nvCtxR.surfaceQueueWriteIdx + 1 }
        some { status := status, ctx := nvCtx1, surface := some target1, signaled := true }

/-- Result of the resolve thread processing one dequeued Surface. -/
structure ResolveOut where
  surface : NVSurface
  calledMap : Bool
  calledExport : Bool
  signaled : Bool
  deriving DecidableEq

/-- The per-surface body of the resolve loop `resolveSurfaces`
(vabackend.c lines 448-470): a Surface with `decodeFailed` has its
`resolving` flag cleared and its condition variable signalled without
calling `cuvidMapVideoFrame` or `exportCudaPtr`; a map failure (`mapOk =
false`) does the same after the map attempt; otherwise `exportCudaPtr` is
invoked (`exportCudaPtr` itself is backend code outside `src/`; per the
spec it copies the decoded frame into the backing image, after which the
resolving flag is cleared). -/
def resolveSurfacesBody (surface : NVSurface) (mapOk : Bool) : ResolveOut :=
  if surface.decodeFailed then
    { surface := { surface with resolving := false }, calledMap := false, calledExport := false, signaled := true }
  else if mapOk = false then
    { surface := { surface with resolving := false }, calledMap := true, calledExport := false, signaled := true }
  else
    { surface := surface, calledMap := true, calledExport := true, signaled := false }

/-- A Surface as freshly created by `nvCreateSurfaces2` (zeroed by
`allocateObject`, then `pictureIdx = -1`, `context = NULL`). -/
def freshSurface : NVSurface :=
  { width := 0, height := 0, format := .NV12, pictureIdx := -1, bitDepth := 8,
    context := none, chromaFormat := .C420, progressiveFrame := false,
    topFieldFirst := false, secondField := false, decodeFailed := false,
    resolving := false, backingImage := false }

/-- A Context as freshly created by `nvCreateContext` with `surfaceCount = N`
(zero-initialised by `allocateObject`, so `currentPictureId = 0` and the
resolve ring indices are 0). -/
def mkCtx (N : Nat) : NVContext :=
  { currentPictureId := 0, surfaceCount := N, renderTarget := none,
    pPicParams := zeroPicParams, bitstreamBuffer := emptyAB, sliceOffsets := emptyAB,
    surfaceQueue := List.replicate SURFACE_QUEUE_SIZE none,
    surfaceQueueReadIdx := 0, surfaceQueueWriteIdx := 0, exiting := false }

/-- Iterate `nvBeginPicture` on a sequence of fresh Surfaces (each with
`pictureIdx = -1` and no owning Context), keeping the evolving Context. -/
def iterBeginPicture (ctxId : Nat) : Nat → NVContext → NVContext
  | 0, c => c
  | n + 1, c => iterBeginPicture ctxId n (nvBeginPicture ctxId c freshSurface).ctx

theorem nvBeginPicture_fresh_success (ctxId : Nat) (c : NVContext)
    (h : c.currentPictureId ≠ c.surfaceCount) :
    (nvBeginPicture ctxId c freshSurface).status = .SUCCESS
    ∧ (nvBeginPicture ctxId c freshSurface).ctx.currentPictureId = c.currentPictureId + 1
    ∧ (nvBeginPicture ctxId c freshSurface).ctx.surfaceCount = c.surfaceCount := by
  simp [nvBeginPicture, freshSurface, h]

theorem iterBeginPicture_counts (ctxId : Nat) :
    ∀ (k : Nat) (c : NVContext), c.currentPictureId + k ≤ c.surfaceCount →
      (iterBeginPicture ctxId k c).currentPictureId = c.currentPictureId + k
      ∧ (iterBeginPicture ctxId k c).surfaceCount = c.surfaceCount := by
  intro k
  induction k with
  | zero => intro c _; simp [iterBeginPicture]
  | succ n ih =>
      intro c hk
      have hne : c.currentPictureId ≠ c.surfaceCount := by omega
      have hstep := nvBeginPicture_fresh_success ctxId c hne
      have := ih (nvBeginPicture ctxId c freshSurface).ctx
        (by rw [hstep.2.1, hstep.2.2]; omega)
      rw [iterBeginPicture]
      rw [this.1, this.2, hstep.2.1, hstep.2.2]
      omega

theorem nvBeginPicture_fresh_max (ctxId : Nat) (c : NVContext)
    (h : c.currentPictureId = c.surfaceCount) :
    (nvBeginPicture ctxId c freshSurface).status = .ERROR_MAX_NUM_EXCEEDED := by
  simp [nvBeginPicture, freshSurface, h]

/-- C1: for a `BeginPicture` on a target with `pictureIdx == -1` in a
Context with `surfaceCount = N`: when `currentPictureId = N` the call
returns `MAX_NUM_EXCEEDED`, leaves `pictureIdx = -1` and does not advance
`currentPictureId`; otherwise it returns `SUCCESS`, assigns
`pictureIdx = currentPictureId` and increments `currentPictureId`.
Consequently, starting from a fresh Context, each of the first `N` calls
on fresh Surfaces succeeds and the `(N+1)`-th fails. -/
theorem claim_C1_beginPicture (ctxId : Nat) (nvCtx : NVContext) (surface : NVSurface) (N : Nat)
    (hN : nvCtx.surfaceCount = N) (hidx : surface.pictureIdx = -1) :
    ((nvCtx.currentPictureId = N →
        (nvBeginPicture ctxId nvCtx surface).status = .ERROR_MAX_NUM_EXCEEDED
        ∧ (nvBeginPicture ctxId nvCtx surface).surface.pictureIdx = -1
        ∧ (nvBeginPicture ctxId nvCtx surface).ctx.currentPictureId = nvCtx.currentPictureId)
     ∧ (nvCtx.currentPictureId ≠ N →
        (nvBeginPicture ctxId nvCtx surface).status = .SUCCESS
        ∧ (nvBeginPicture ctxId nvCtx surface).surface.pictureIdx = (nvCtx.currentPictureId : Int)
        ∧ (nvBeginPicture ctxId nvCtx surface).ctx.currentPictureId = nvCtx.currentPictureId + 1))
    ∧ ((∀ k, k < N →
          (nvBeginPicture ctxId (iterBeginPicture ctxId k (mkCtx N)) freshSurface).status = .SUCCESS)
       ∧ (nvBeginPicture ctxId (iterBeginPicture ctxId N (mkCtx N)) freshSurface).status
            = .ERROR_MAX_NUM_EXCEEDED) := by
  refine ⟨⟨?_, ?_⟩, ?_, ?_⟩
  · intro hcur
    have hc2 : nvCtx.currentPictureId = nvCtx.surfaceCount := by omega
    by_cases hreb : surface.context ≠ none ∧ surface.context ≠ some ctxId
    · simp [nvBeginPicture, hreb, hidx, hc2]
    · simp [nvBeginPicture, hreb, hidx, hc2]
  · intro hcur
    have hc2 : ¬ nvCtx.currentPictureId = nvCtx.surfaceCount := by omega
    by_cases hreb : surface.context ≠ none ∧ surface.context ≠ some ctxId
    · simp [nvBeginPicture, hreb, hidx, hc2]
    · simp [nvBeginPicture, hreb, hidx, hc2]
  · intro k hk
    have hcnt := iterBeginPicture_counts ctxId k (mkCtx N)
      (by simp [mkCtx]; omega)
    exact (nvBeginPicture_fresh_success ctxId _
      (by rw [hcnt.1, hcnt.2]; simp [mkCtx]; omega)).1
  · have hcnt := iterBeginPicture_counts ctxId N (mkCtx N) (by simp [mkCtx])
    exact nvBeginPicture_fresh_max ctxId _ (by rw [hcnt.1, hcnt.2]; simp [mkCtx])

/-- C1 (witness): with `surfaceCount = 1` and `currentPictureId = 0`, the
first `BeginPicture` on a fresh Surface succeeds. -/
theorem claim_C1_witness :
    (nvBeginPicture 1 (mkCtx 1) freshSurface).status = VAStatus.SUCCESS :=
  ((claim_C1_beginPicture 1 (mkCtx 1) freshSurface 1 rfl rfl).1.2 (by decide)).1

/-- C8 (counterexample): a concrete `BeginPicture` whose target belongs to
a different Context (id 1 versus caller id 2).  The backing image is
detached, but at return the target's `pictureIdx` is 0 (the freshly
assigned index), not -1 as the claim states. -/
def rebindSurfaceC8 : NVSurface :=
  { freshSurface with pictureIdx := 5, context := some 1, backingImage := true }

theorem claim_C8_counterexample :
    rebindSurfaceC8.context = some 1
    ∧ rebindSurfaceC8.context ≠ some 2
    ∧ (nvBeginPicture 2 (mkCtx 8) rebindSurfaceC8).status = VAStatus.SUCCESS
    ∧ (nvBeginPicture 2 (mkCtx 8) rebindSurfaceC8).surface.backingImage = false
    ∧ (nvBeginPicture 2 (mkCtx 8) rebindSurfaceC8).surface.pictureIdx = 0 := by
  decide

/-- C8 (amended): for every `BeginPicture` whose target's `context` is
non-null and differs from the calling Context, by return the target's
backing image has been detached and its `pictureIdx` has been reset to -1
and then, unless the call failed with `MAX_NUM_EXCEEDED` (in which case it
is still -1), immediately reassigned to the calling Context's
`currentPictureId`. -/
theorem claim_C8_beginPicture_rebind_amended (ctxId : Nat) (nvCtx : NVContext)
    (surface : NVSurface)
    (hc : surface.context ≠ none) (hne : surface.context ≠ some ctxId) :
    (nvBeginPicture ctxId nvCtx surface).surface.backingImage = false
    ∧ (nvBeginPicture ctxId nvCtx surface).detachCalled = surface.backingImage
    ∧ ((nvBeginPicture ctxId nvCtx surface).status = .ERROR_MAX_NUM_EXCEEDED →
        (nvBeginPicture ctxId nvCtx surface).surface.pictureIdx = -1)
    ∧ ((nvBeginPicture ctxId nvCtx surface).status = .SUCCESS →
        (nvBeginPicture ctxId nvCtx surface).surface.pictureIdx = (nvCtx.currentPictureId : Int)) := by
  have hreb : surface.context ≠ none ∧ surface.context ≠ some ctxId := ⟨hc, hne⟩
  by_cases hmax : nvCtx.currentPictureId = nvCtx.surfaceCount
  · simp [nvBeginPicture, hreb, hmax]
  · simp [nvBeginPicture, hreb, hmax]

/-- C8 (witness): the amended theorem applied at the concrete rebinding
input of the counterexample. -/
theorem claim_C8_witness :
    (nvBeginPicture 2 (mkCtx 8) rebindSurfaceC8).surface.backingImage = false :=
  (claim_C8_beginPicture_rebind_amended 2 (mkCtx 8) rebindSurfaceC8 (by decide) (by decide)).1

/-- C2: if `cuvidDecodePicture` fails, `nvEndPicture` returns
`DECODING_ERROR`, marks the target `decodeFailed`, still enqueues the
target at the resolve ring's write index and signals the resolve
condition; the resolve thread's handling of that Surface then clears its
`resolving` flag and signals its condition variable without calling
`cuvidMapVideoFrame` or `exportCudaPtr`, so a `SyncSurface` waiter is
unblocked. -/
theorem claim_C2_endPicture_decode_failure (ctxId : Nat) (nvCtx : NVContext)
    (target : NVSurface) (mapOk : Bool)
    (hrt : nvCtx.renderTarget = some target)
    (hw : nvCtx.surfaceQueueWriteIdx < nvCtx.surfaceQueue.length) :
    ∃ out : EndOut,
      nvEndPicture ctxId nvCtx true true .error = some out
      ∧ out.status = .ERROR_DECODING_ERROR
      ∧ ∃ target1 : NVSurface, out.surface = some target1
          ∧ target1.decodeFailed = true
          ∧ out.ctx.surfaceQueue[nvCtx.surfaceQueueWriteIdx]? = some (some target1)
          ∧ out.signaled = true
          ∧ (resolveSurfacesBody target1 mapOk).calledExport = false
          ∧ (resolveSurfacesBody target1 mapOk).calledMap = false
          ∧ (resolveSurfacesBody target1 mapOk).surface.resolving = false
          ∧ (resolveSurfacesBody target1 mapOk).signaled = true := by
  have e : nvEndPicture ctxId nvCtx true true .error
      = some { status := .ERROR_DECODING_ERROR,
               ctx := { nvCtx with
                 bitstreamBuffer := { nvCtx.bitstreamBuffer with size := 0 },
                 sliceOffsets := { nvCtx.sliceOffsets with size := 0 },
                 renderTarget := some { target with
                   context := some ctxId,
                   topFieldFirst := !nvCtx.pPicParams.bottomFieldFlag,
                   secondField := nvCtx.pPicParams.secondField,
                   decodeFailed := true },
                 surfaceQueue := nvCtx.surfaceQueue.set nvCtx.surfaceQueueWriteIdx
                   (some { target with
                     context := some ctxId,
                     topFieldFirst := !nvCtx.pPicParams.bottomFieldFlag,
                     secondField := nvCtx.pPicParams.secondField,
                     decodeFailed := true }),
                 surfaceQueueWriteIdx :=
                   if nvCtx.surfaceQueueWriteIdx + 1 ≥ SURFACE_QUEUE_SIZE then 0
                   else nvCtx.surfaceQueueWriteIdx + 1 },
               surface := some { target with
                 context := some ctxId,
                 topFieldFirst := !nvCtx.pPicParams.bottomFieldFlag,
                 secondField := nvCtx.pPicParams.secondField,
                 decodeFailed := true },
               signaled := true } := by
    simp [nvEndPicture, hrt]
  refine ⟨_, e, rfl, _, rfl, rfl, ?_, rfl, ?_, ?_, ?_, ?_⟩
  · show (nvCtx.surfaceQueue.set nvCtx.surfaceQueueWriteIdx _)[nvCtx.surfaceQueueWriteIdx]?
        = some (some _)
    rw [List.getElem?_set_self (by simpa using hw)]
  · simp [resolveSurfacesBody]
  · simp [resolveSurfacesBody]
  · simp [resolveSurfacesBody]
  · simp [resolveSurfacesBody]

/-- Concrete Context for the C2 witness: a fresh Context whose render
target was set by a preceding `BeginPicture`. -/
def ctxC2 : NVContext := { mkCtx 2 with renderTarget := some freshSurface }

/-- C2 (witness): the decode-failure theorem applied to a concrete
Context and target. -/
theorem claim_C2_witness :
    ∃ out : EndOut,
      nvEndPicture 7 ctxC2 true true .error = some out
      ∧ out.status = .ERROR_DECODING_ERROR
      ∧ ∃ target1 : NVSurface, out.surface = some target1
          ∧ target1.decodeFailed = true
          ∧ out.ctx.surfaceQueue[ctxC2.surfaceQueueWriteIdx]? = some (some target1)
          ∧ out.signaled = true
          ∧ (resolveSurfacesBody target1 true).calledExport = false
          ∧ (resolveSurfacesBody target1 true).calledMap = false
          ∧ (resolveSurfacesBody target1 true).surface.resolving = false
          ∧ (resolveSurfacesBody target1 true).signaled = true :=
  claim_C2_endPicture_decode_failure 7 ctxC2 freshSurface true rfl (by decide)

/-- `VA_SURFACE_ATTRIB_MEM_TYPE_DRM_PRIME_2` (va_drmcommon.h, external ABI). -/
def VA_SURFACE_ATTRIB_MEM_TYPE_DRM_PRIME_2 : Nat := 0x40000000

/-- `VA_EXPORT_SURFACE_SEPARATE_LAYERS` (va.h, external ABI). -/
def VA_EXPORT_SURFACE_SEPARATE_LAYERS : Nat := 0x0004

/-- Backend calls observable from `nvExportSurfaceHandle`. -/
inductive ExportEvent where
  | realiseSurface
  | fillExportDescriptor
  deriving DecidableEq

/-- `nvExportSurfaceHandle` (vabackend.c lines 1844-1872): reject a
`mem_type` without `DRM_PRIME_2` with `UNSUPPORTED_MEMORY_TYPE`, then
`flags` without `SEPARATE_LAYERS` with `INVALID_SURFACE`, then a failed
surface lookup with `INVALID_SURFACE`; only then push the device context
and call the backend (`realiseSurface`, then `fillExportDescriptor`).
`surfaceLookup` is the result of `getObjectPtr(surface_id)`; `pushOk`,
`realiseOk` and `popOk` are oracles for `cuCtxPushCurrent`,
`backend->realiseSurface` and `cuCtxPopCurrent`.  The second component
lists the backend calls made. -/
def nvExportSurfaceHandle (memType flags : Nat) (surfaceLookup : Option NVSurface)
    (pushOk realiseOk popOk : Bool) : VAStatus × List ExportEvent :=
  if memType &&& VA_SURFACE_ATTRIB_MEM_TYPE_DRM_PRIME_2 = 0 then
    (.ERROR_UNSUPPORTED_MEMORY_TYPE, [])
  else if flags &&& VA_EXPORT_SURFACE_SEPARATE_LAYERS = 0 then
    (.ERROR_INVALID_SURFACE, [])
  else
    match surfaceLookup with
    | none => (.ERROR_INVALID_SURFACE, [])
    | some _ =>
        if pushOk = false then (.ERROR_OPERATION_FAILED, [])
        else if realiseOk = false then (.ERROR_ALLOCATION_FAILED, [.realiseSurface])
        else if popOk = false then (.ERROR_OPERATION_FAILED, [.realiseSurface, .fillExportDescriptor])
        else (.SUCCESS, [.realiseSurface, .fillExportDescriptor])

/-- C3: `nvExportSurfaceHandle` checks, in order: `mem_type` includes
`DRM_PRIME_2` (else `UNSUPPORTED_MEMORY_TYPE`), `flags` includes
`SEPARATE_LAYERS` (else `INVALID_SURFACE`), the surface id names a live
Surface (else `INVALID_SURFACE`); in all three failure cases no backend
call has been made, and conversely any backend call implies all three
checks passed. -/
theorem claim_C3_exportSurfaceHandle_guards (memType flags : Nat)
    (surfaceLookup : Option NVSurface) (pushOk realiseOk popOk : Bool) :
    (memType &&& VA_SURFACE_ATTRIB_MEM_TYPE_DRM_PRIME_2 = 0 →
      nvExportSurfaceHandle memType flags surfaceLookup pushOk realiseOk popOk
        = (.ERROR_UNSUPPORTED_MEMORY_TYPE, []))
    ∧ (memType &&& VA_SURFACE_ATTRIB_MEM_TYPE_DRM_PRIME_2 ≠ 0 →
       flags &&& VA_EXPORT_SURFACE_SEPARATE_LAYERS = 0 →
      nvExportSurfaceHandle memType flags surfaceLookup pushOk realiseOk popOk
        = (.ERROR_INVALID_SURFACE, []))
    ∧ (memType &&& VA_SURFACE_ATTRIB_MEM_TYPE_DRM_PRIME_2 ≠ 0 →
       flags &&& VA_EXPORT_SURFACE_SEPARATE_LAYERS ≠ 0 →
       surfaceLookup = none →
      nvExportSurfaceHandle memType flags surfaceLookup pushOk realiseOk popOk
        = (.ERROR_INVALID_SURFACE, []))
    ∧ ((nvExportSurfaceHandle memType flags surfaceLookup pushOk realiseOk popOk).2 ≠ [] →
        memType &&& VA_SURFACE_ATTRIB_MEM_TYPE_DRM_PRIME_2 ≠ 0
        ∧ flags &&& VA_EXPORT_SURFACE_SEPARATE_LAYERS ≠ 0
        ∧ surfaceLookup ≠ none) := by
  refine ⟨?_, ?_, ?_, ?_⟩
  · intro h1
    simp [nvExportSurfaceHandle, h1]
  · intro h1 h2
    simp [nvExportSurfaceHandle, h1, h2]
  · intro h1 h2 h3
    simp [nvExportSurfaceHandle, h1, h2, h3]
  · intro hne
    by_cases h1 : memType &&& VA_SURFACE_ATTRIB_MEM_TYPE_DRM_PRIME_2 = 0
    · exact absurd (by simp [nvExportSurfaceHandle, h1]) hne
    · by_cases h2 : flags &&& VA_EXPORT_SURFACE_SEPARATE_LAYERS = 0
      · exact absurd (by simp [nvExportSurfaceHandle, h1, h2]) hne
      · match hs : surfaceLookup with
        | none => exact absurd (by simp [nvExportSurfaceHandle, h1, h2, hs]) hne
        | some s => exact ⟨h1, h2, by simp [hs]⟩

/-- C3 (witness): the guard theorem applied at `mem_type = DRM_PRIME` (not
v2), which is rejected with `UNSUPPORTED_MEMORY_TYPE` before any backend
call. -/
theorem claim_C3_witness :
    nvExportSurfaceHandle 0x20000000 0x0004 (some freshSurface) true true true
      = (.ERROR_UNSUPPORTED_MEMORY_TYPE, []) :=
  (claim_C3_exportSurfaceHandle_guards 0x20000000 0x0004 (some freshSurface) true true true).1
    (by decide)

/-- The VA profiles named in `nvCreateConfig`'s override switches;
`otherProfile` stands for every profile hitting only the `default`
branches. -/
inductive VAProfile where
  | MPEG2Simple
  | MPEG2Main
  | H264Main
  | HEVCMain
  | HEVCMain10
  | HEVCMain12
  | HEVCMain444
  | HEVCMain444_10
  | HEVCMain444_12
  | VP8Version0_3
  | VP9Profile0
  | VP9Profile1
  | VP9Profile2
  | VP9Profile3
  | AV1Profile0
  | AV1Profile1
  | otherProfile
  deriving DecidableEq

/-- The config attribute types `nvCreateConfig` distinguishes. -/
inductive VAConfigAttribType where
  | RTFormat
  | otherAttribType
  deriving DecidableEq

/-- `VAConfigAttrib` (va.h): a typed attribute with a bitmask value. -/
structure VAConfigAttrib where
  type : VAConfigAttribType
  value : Nat
  deriving DecidableEq

/-- `VA_RT_FORMAT_YUV420_10` (va.h, external ABI). -/
def VA_RT_FORMAT_YUV420_10 : Nat := 0x00000100

/-- `VA_RT_FORMAT_YUV420_12` (va.h, external ABI). -/
def VA_RT_FORMAT_YUV420_12 : Nat := 0x00001000

/-- `VA_RT_FORMAT_YUV444` (va.h, external ABI). -/
def VA_RT_FORMAT_YUV444 : Nat := 0x00000004

/-- `VA_RT_FORMAT_YUV444_10` (va.h, external ABI). -/
def VA_RT_FORMAT_YUV444_10 : Nat := 0x00000400

/-- `VA_RT_FORMAT_YUV444_12` (va.h, external ABI). -/
def VA_RT_FORMAT_YUV444_12 : Nat := 0x00004000

/-- The `NVConfig` fields computed by `nvCreateConfig` lines 669-767
(chroma format, surface format, bit depth). -/
structure NVConfigFields where
  chromaFormat : cudaVideoChromaFormat
  surfaceFormat : cudaVideoSurfaceFormat
  bitDepth : Nat
  deriving DecidableEq

/-- The defaults set at vabackend.c lines 670-672: chroma 4:2:0, surface
format NV12, bit depth 8. -/
def nvCreateConfigDefaults : NVConfigFields :=
  { chromaFormat := .C420, surfaceFormat := .NV12, bitDepth := 8 }

/-- The `supports16BitSurface` switch of `nvCreateConfig` (vabackend.c
lines 673-709).  The `VP9Profile2/AV1Profile0` case reads
`attrib_list[0]` when `num_attribs > 0` and its type is `RTFormat`, and
otherwise falls back to `P016`/10-bit for VP9 Profile2 only. -/
def config16BitOverride (cfg : NVConfigFields) (profile : VAProfile)
    (attribList : List VAConfigAttrib) : NVConfigFields :=
  match profile with
  | .HEVCMain10 => { cfg with surfaceFormat := .P016, bitDepth := 10 }
  | .HEVCMain12 => { cfg with surfaceFormat := .P016, bitDepth := 12 }
  | .VP9Profile2 | .AV1Profile0 =>
      match attribList with
      | [] =>
          if profile = .VP9Profile2 then { cfg with surfaceFormat := .P016, bitDepth := 10 }
          else cfg
      | a :: _ =>
          if a.type = .RTFormat then
            if a.value = VA_RT_FORMAT_YUV420_12 then
              { cfg with surfaceFormat := .P016, bitDepth := 12 }
            else if a.value = VA_RT_FORMAT_YUV420_10 then
              { cfg with surfaceFormat := .P016, bitDepth := 10 }
            else cfg
          else
            if profile = .VP9Profile2 then { cfg with surfaceFormat := .P016, bitDepth := 10 }
            else cfg
  | _ => cfg

/-- The `supports444Surface` switch of `nvCreateConfig` (vabackend.c
lines 710-722). -/
def config444Override (cfg : NVConfigFields) (profile : VAProfile) : NVConfigFields :=
  match profile with
  | .HEVCMain444 | .VP9Profile1 | .AV1Profile1 =>
      { cfg with surfaceFormat := .YUV444, chromaFormat := .C444, bitDepth := 8 }
  | _ => cfg

/-- The combined `supports444Surface && supports16BitSurface` switch of
`nvCreateConfig` (vabackend.c lines 723-767). -/
def config44416BitOverride (cfg : NVConfigFields) (profile : VAProfile)
    (attribList : List VAConfigAttrib) : NVConfigFields :=
  match profile with
  | .HEVCMain444_10 =>
      { cfg with surfaceFormat := .YUV444_16Bit, chromaFormat := .C444, bitDepth := 10 }
  | .HEVCMain444_12 =>
      { cfg with surfaceFormat := .YUV444_16Bit, chromaFormat := .C444, bitDepth := 12 }
  | .VP9Profile3 | .AV1Profile1 =>
      match attribList with
      | [] =>
          if profile = .VP9Profile3 then
            { cfg with surfaceFormat := .YUV444_16Bit, chromaFormat := .C444, bitDepth := 10 }
          else cfg
      | a :: _ =>
          if a.type = .RTFormat then
            if a.value = VA_RT_FORMAT_YUV444_12 then
              { cfg with surfaceFormat := .YUV444_16Bit, chromaFormat := .C444, bitDepth := 12 }
            else if a.value = VA_RT_FORMAT_YUV444_10 then
              { cfg with surfaceFormat := .YUV444_16Bit, chromaFormat := .C444, bitDepth := 10 }
            else if a.value = VA_RT_FORMAT_YUV444 then
              { cfg with surfaceFormat := .YUV444, chromaFormat := .C444, bitDepth := 8 }
            else cfg
          else
            if profile = .VP9Profile3 then
              { cfg with surfaceFormat := .YUV444_16Bit, chromaFormat := .C444, bitDepth := 10 }
            else cfg
  | _ => cfg

/-- The override logic of `nvCreateConfig` (vabackend.c lines 669-767):
defaults, then the `supports16BitSurface` switch, then the
`supports444Surface` switch, then the combined switch. -/
def nvCreateConfigFields (supports16BitSurface supports444Surface : Bool)
    (profile : VAProfile) (attribList : List VAConfigAttrib) : NVConfigFields :=
  let cfg := nvCreateConfigDefaults
  let cfg := if supports16BitSurface then config16BitOverride cfg profile attribList else cfg
  let cfg := if supports444Surface then config444Override cfg profile else cfg
  let cfg :=
    if supports444Surface && supports16BitSurface then
      config44416BitOverride cfg profile attribList
    else cfg
  cfg

/-- C7: `nvCreateConfig` starts every Config at chroma 4:2:0 / NV12 /
8-bit (so with both caps flags off every profile keeps the defaults);
with `supports16BitSurface` set, HEVC Main10 becomes P016/10-bit, HEVC
Main12 becomes P016/12-bit, and VP9 Profile2 / AV1 Profile0 with a first
attribute `RTFormat = YUV420_10` (resp. `YUV420_12`) become P016/10-bit
(resp. P016/12-bit); with `supports16BitSurface` off those profiles keep
the defaults whatever `supports444Surface` is. -/
theorem claim_C7_createConfig (supports16BitSurface supports444Surface : Bool)
    (profile : VAProfile) (attribList rest : List VAConfigAttrib) :
    (supports16BitSurface = false → supports444Surface = false →
      nvCreateConfigFields supports16BitSurface supports444Surface profile attribList
        = nvCreateConfigDefaults)
    ∧ (supports16BitSurface = true →
      nvCreateConfigFields supports16BitSurface supports444Surface .HEVCMain10 attribList
        = { chromaFormat := .C420, surfaceFormat := .P016, bitDepth := 10 })
    ∧ (supports16BitSurface = true →
      nvCreateConfigFields supports16BitSurface supports444Surface .HEVCMain12 attribList
        = { chromaFormat := .C420, surfaceFormat := .P016, bitDepth := 12 })
    ∧ (supports16BitSurface = true →
       ∀ p ∈ [VAProfile.VP9Profile2, VAProfile.AV1Profile0],
      nvCreateConfigFields supports16BitSurface supports444Surface p
          ({ type := .RTFormat, value := VA_RT_FORMAT_YUV420_10 } :: rest)
        = { chromaFormat := .C420, surfaceFormat := .P016, bitDepth := 10 }
      ∧ nvCreateConfigFields supports16BitSurface supports444Surface p
          ({ type := .RTFormat, value := VA_RT_FORMAT_YUV420_12 } :: rest)
        = { chromaFormat := .C420, surfaceFormat := .P016, bitDepth := 12 })
    ∧ (supports16BitSurface = false →
       ∀ p ∈ [VAProfile.HEVCMain10, VAProfile.HEVCMain12,
              VAProfile.VP9Profile2, VAProfile.AV1Profile0],
      nvCreateConfigFields supports16BitSurface supports444Surface p attribList
        = nvCreateConfigDefaults) := by
  refine ⟨?_, ?_, ?_, ?_, ?_⟩
  · rintro rfl rfl
    simp [nvCreateConfigFields]
  · rintro rfl
    cases supports444Surface <;>
      simp [nvCreateConfigFields, nvCreateConfigDefaults, config16BitOverride,
        config444Override, config44416BitOverride]
  · rintro rfl
    cases supports444Surface <;>
      simp [nvCreateConfigFields, nvCreateConfigDefaults, config16BitOverride,
        config444Override, config44416BitOverride]
  · rintro rfl p hp
    simp only [List.mem_cons, List.mem_singleton] at hp
    rcases hp with rfl | rfl | h
    · cases supports444Surface <;>
        simp [nvCreateConfigFields, nvCreateConfigDefaults, config16BitOverride,
          config444Override, config44416BitOverride,
          VA_RT_FORMAT_YUV420_10, VA_RT_FORMAT_YUV420_12]
    · cases supports444Surface <;>
        simp [nvCreateConfigFields, nvCreateConfigDefaults, config16BitOverride,
          config444Override, config44416BitOverride,
          VA_RT_FORMAT_YUV420_10, VA_RT_FORMAT_YUV420_12]
    · simp at h
  · rintro rfl p hp
    simp only [List.mem_cons, List.mem_singleton] at hp
    rcases hp with rfl | rfl | rfl | rfl | h
    · cases supports444Surface <;>
        simp [nvCreateConfigFields, nvCreateConfigDefaults, config16BitOverride,
        config444Override, config44416BitOverride]
    · cases supports444Surface <;>
        simp [nvCreateConfigFields, nvCreateConfigDefaults, config16BitOverride,
        config444Override, config44416BitOverride]
    · cases supports444Surface <;>
        simp [nvCreateConfigFields, nvCreateConfigDefaults, config16BitOverride,
        config444Override, config44416BitOverride]
    · cases supports444Surface <;>
        simp [nvCreateConfigFields, nvCreateConfigDefaults, config16BitOverride,
        config444Override, config44416BitOverride]
    · simp at h

/-- C7 (witness): with `supports16BitSurface` the HEVC Main10 Config ends
up P016 / 10-bit. -/
theorem claim_C7_witness :
    nvCreateConfigFields true false .HEVCMain10 []
      = { chromaFormat := .C420, surfaceFormat := .P016, bitDepth := 10 } :=
  (claim_C7_createConfig true false .HEVCMain10 [] []).2.1 rfl

/-- Object types of the Object Registry (`ObjectType` in vabackend.h). -/
inductive ObjectType where
  | OBJECT_TYPE_CONFIG
  | OBJECT_TYPE_CONTEXT
  | OBJECT_TYPE_SURFACE
  | OBJECT_TYPE_BUFFER
  | OBJECT_TYPE_IMAGE
  deriving DecidableEq

/-- `VA_INVALID_ID` (va.h, external ABI). -/
def VA_INVALID_ID : Nat := 0xFFFFFFFF

/-- A registry entry (`struct Object_t`): id, type, and the inner payload
pointer (`obj`, `none` = NULL, allocated when `allocatePtrSize > 0`). -/
structure RegObject (α : Type) where
  id : Nat
  type : ObjectType
  obj : Option α
  deriving DecidableEq

/-- The Object Registry part of `NVDriver`: the object list and the
monotonically increasing id counter `nextObjId`. -/
structure Registry (α : Type) where
  objects : List (RegObject α)
  nextObjId : Nat
  deriving DecidableEq

/-- `allocateObject` (vabackend.c lines 278-289): assign id `++nextObjId`,
zero-allocate the payload when requested, append to the object list. -/
def allocateObject (r : Registry α) (t : ObjectType) (payload : Option α) :
    RegObject α × Registry α :=
  let newObj : RegObject α := { id := r.nextObjId + 1, type := t, obj := payload }
  (newObj, { objects := r.objects ++ [newObj], nextObjId := r.nextObjId + 1 })

/-- `getObject` (vabackend.c lines 291-304): linear scan for the first
entry with the given id; `none` for `VA_INVALID_ID` or a missing id. -/
def getObject (r : Registry α) (id : Nat) : Option (RegObject α) :=
  if id = VA_INVALID_ID then none
  else r.objects.find? (fun o => o.id == id)

/-- `getObjectPtr` (vabackend.c lines 306-314): the payload pointer of the
object, `none` when the object is missing or its payload is NULL. -/
def getObjectPtr (r : Registry α) (id : Nat) : Option α :=
  (getObject r id).bind (fun o => o.obj)

/-- `deleteObject` (vabackend.c lines 331-345): remove (and free) the
first entry with the given id; no-op on `VA_INVALID_ID`. -/
def deleteObject (r : Registry α) (id : Nat) : Registry α :=
  if id = VA_INVALID_ID then r
  else { r with objects := r.objects.eraseP (fun o => o.id == id) }

/-- Inner payloads stored in the driver registry, one constructor per
object type the modelled entry points create (the C registry stores
`void*`). -/
inductive DrvPayload where
  | surfacePayload (s : NVSurface)
  | contextPayload (profile : VAProfile)
  | configPayload (profile : VAProfile) (fields : NVConfigFields)
  | bufferPayload (bufferType : Nat) (elements : Nat) (size : Nat) (ptr : Bool) (offset : Nat)
  deriving DecidableEq

/-- The driver-level state relevant to the registry claims: the Object
Registry and the global `surfaceCount` field of `NVDriver`. -/
structure DriverState where
  registry : Registry DrvPayload
  surfaceCount : Nat
  deriving DecidableEq

/-- The number of live Surface objects in the registry. -/
def surfaceObjCount (d : DriverState) : Nat :=
  d.registry.objects.countP (fun o => o.type == .OBJECT_TYPE_SURFACE)

/-- `VASliceDataBufferType` (va.h enum `VABufferType`, external ABI). -/
def VASliceDataBufferType : Nat := 5

/-- `nvCreateBuffer` (vabackend.c lines 1065-1102), given the address of
the caller's data (`dataAddr`, `none` = NULL) and an oracle `allocOk` for
the `memalign` of the payload.  A VP8 slice-data buffer is unaligned: the
offset `dataAddr % 16` is added to the size.  The Buffer object is
allocated in the registry and `*buf_id` written BEFORE the payload
allocation is checked; on `memalign` failure the call returns
`ALLOCATION_FAILED` leaving the object in the registry. -/
def nvCreateBuffer (drv : DriverState) (contextId : Nat) (bufferType : Nat)
    (size numElements : Nat) (dataAddr : Option Nat) (allocOk : Bool) :
    VAStatus × DriverState × Option Nat :=
  match getObjectPtr drv.registry contextId with
  | some (.contextPayload profile) =>
      let offset :=
        match dataAddr with
        | some addr =>
            if profile = .VP8Version0_3 ∧ bufferType = VASliceDataBufferType then addr % 16
            else 0
        | none => 0
      let size := size + offset
      let payload : DrvPayload :=
        .bufferPayload bufferType numElements (numElements * size) allocOk offset
      let (obj, reg) := allocateObject drv.registry .OBJECT_TYPE_BUFFER (some payload)
      let drv := { drv with registry := reg }
      if allocOk = false then
        (.ERROR_ALLOCATION_FAILED, drv, some obj.id)
      else
        (.SUCCESS, drv, some obj.id)
  | _ => (.ERROR_INVALID_CONTEXT, drv, none)

/-- A driver state holding exactly one Context object (id 1), as after
`CreateContext` on a fresh driver. -/
def drvC6 : DriverState :=
  { registry := { objects := [{ id := 1, type := .OBJECT_TYPE_CONTEXT,
                                obj := some (.contextPayload .otherProfile) }],
                  nextObjId := 1 },
    surfaceCount := 0 }

/-- C6 (counterexample): a concrete `CreateBuffer` whose payload
allocation fails returns `ALLOCATION_FAILED`, yet the new Buffer object
(id 2) remains in the Object Registry and the written-out `buf_id` (2)
still names it — no rollback happens. -/
theorem claim_C6_counterexample :
    (nvCreateBuffer drvC6 1 5 10 1 none false).1 = .ERROR_ALLOCATION_FAILED
    ∧ (nvCreateBuffer drvC6 1 5 10 1 none false).2.2 = some 2
    ∧ getObject (nvCreateBuffer drvC6 1 5 10 1 none false).2.1.registry 2
        = some { id := 2, type := .OBJECT_TYPE_BUFFER,
                 obj := some (.bufferPayload 5 1 10 false 0) } := by
  decide

/-- C6 (amended): when the payload allocation in `CreateBuffer` fails,
the call returns `ALLOCATION_FAILED` but does NOT roll back: the
partially-created Buffer object (with a NULL payload pointer) remains in
the Object Registry and the written-out `buf_id` names it. -/
theorem claim_C6_createBuffer_amended (drv : DriverState)
    (contextId bufferType size numElements : Nat) (dataAddr : Option Nat)
    (profile : VAProfile)
    (hctx : getObjectPtr drv.registry contextId = some (.contextPayload profile))
    (hid : drv.registry.nextObjId + 1 ≠ VA_INVALID_ID)
    (hfresh : ∀ o ∈ drv.registry.objects, o.id ≠ drv.registry.nextObjId + 1) :
    (nvCreateBuffer drv contextId bufferType size numElements dataAddr false).1
        = .ERROR_ALLOCATION_FAILED
    ∧ (nvCreateBuffer drv contextId bufferType size numElements dataAddr false).2.2
        = some (drv.registry.nextObjId + 1)
    ∧ ((getObject
          (nvCreateBuffer drv contextId bufferType size numElements dataAddr false).2.1.registry
          (drv.registry.nextObjId + 1)).map
        (fun o => (o.type, o.obj.map (fun p =>
          match p with
          | .bufferPayload _ _ _ ptr _ => some ptr
          | _ => none))))
      = some (.OBJECT_TYPE_BUFFER, some (some false)) := by
  have e1 : nvCreateBuffer drv contextId bufferType size numElements dataAddr false
      = (.ERROR_ALLOCATION_FAILED,
         { drv with registry :=
            { objects := drv.registry.objects ++
                [{ id := drv.registry.nextObjId + 1, type := .OBJECT_TYPE_BUFFER,
                   obj := some (.bufferPayload bufferType numElements
                     (numElements * (size +
                       (match dataAddr with
                        | some addr =>
                            if profile = .VP8Version0_3 ∧ bufferType = VASliceDataBufferType
                            then addr % 16 else 0
                        | none => 0))) false
                     (match dataAddr with
                      | some addr =>
                          if profile = .VP8Version0_3 ∧ bufferType = VASliceDataBufferType
                          then addr % 16 else 0
                      | none => 0)) }],
              nextObjId := drv.registry.nextObjId + 1 } },
         some (drv.registry.nextObjId + 1)) := by
    simp only [nvCreateBuffer, hctx, allocateObject]
    rw [if_pos trivial]
  rw [e1]
  refine ⟨rfl, rfl, ?_⟩
  simp only [getObject, if_neg hid]
  rw [List.find?_append]
  rw [List.find?_eq_none.mpr]
  · simp
  · intro o ho
    simp [hfresh o ho]

/-- C6 (witness): the amended theorem applied to the concrete one-Context
driver state of the counterexample. -/
theorem claim_C6_witness :
    (nvCreateBuffer drvC6 1 5 10 1 none false).1 = .ERROR_ALLOCATION_FAILED :=
  (claim_C6_createBuffer_amended drvC6 1 5 10 1 none .otherProfile rfl
    (by decide) (by decide)).1

/-- Events observable from the `nvRenderPicture` buffer loop: the two log
lines and a handler dispatch. -/
inductive RenderEvent where
  | skippedInvalid (id : Nat)
  | handled (id : Nat) (bufferType : Nat)
  | skippedUnhandled (bufferType : Nat)
  deriving DecidableEq

/-- The buffer loop of `nvRenderPicture` (vabackend.c lines 1200-1212).
Line 1201 reads `getObject(drv, buffers[i])->obj` WITHOUT a null check on
the `Object` returned by `getObject`; an id with no registry entry
therefore dereferences a null pointer — modelled as `none` (crash).  The
subsequent `buf == NULL || buf->ptr == NULL` check only catches a NULL
payload.  `handlers t` says whether `nvCtx->codec->handlers[t]` is
non-null (the codec modules are outside `src/`).  A non-Buffer payload
would be reinterpreted as an `NVBuffer` (undefined) — also `none`. -/
def nvRenderPictureLoop (drv : DriverState) (handlers : Nat → Bool) :
    List Nat → List RenderEvent → Option (VAStatus × List RenderEvent)
  | [], evs => some (.SUCCESS, evs.reverse)
  | id :: rest, evs =>
      match getObject drv.registry id with
      | none => none
      | some o =>
          match o.obj with
          | none => nvRenderPictureLoop drv handlers rest (.skippedInvalid id :: evs)
          | some (.bufferPayload bufferType _ _ ptr _) =>
              if ptr = false then
                nvRenderPictureLoop drv handlers rest (.skippedInvalid id :: evs)
              else if handlers bufferType then
                nvRenderPictureLoop drv handlers rest (.handled id bufferType :: evs)
              else
                nvRenderPictureLoop drv handlers rest (.skippedUnhandled bufferType :: evs)
          | some _ => none

/-- `nvRenderPicture` (vabackend.c lines 1187-1214): a missing Context is
rejected with `INVALID_CONTEXT`; then the buffer loop runs and the call
returns `SUCCESS`. -/
def nvRenderPicture (drv : DriverState) (contextId : Nat) (handlers : Nat → Bool)
    (buffers : List Nat) : Option (VAStatus × List RenderEvent) :=
  match getObjectPtr drv.registry contextId with
  | some (.contextPayload _) => nvRenderPictureLoop drv handlers buffers []
  | none => some (.ERROR_INVALID_CONTEXT, [])
  | some _ => none

/-- A driver state holding one Context object (id 1), as after
`CreateContext` on a fresh driver. -/
def drvOneContext : DriverState :=
  { registry := { objects := [{ id := 1, type := .OBJECT_TYPE_CONTEXT,
                                obj := some (.contextPayload .otherProfile) }],
                  nextObjId := 1 },
    surfaceCount := 0 }

/-- A driver state with one Context (id 1) and one Buffer object (id 2)
whose payload pointer is NULL. -/
def drvNullPtrBuffer : DriverState :=
  { registry := { objects := [{ id := 1, type := .OBJECT_TYPE_CONTEXT,
                                obj := some (.contextPayload .otherProfile) },
                              { id := 2, type := .OBJECT_TYPE_BUFFER,
                                obj := some (.bufferPayload 5 1 10 false 0) }],
                  nextObjId := 2 },
    surfaceCount := 0 }

/-- C9 (code bug, evaluation at the failing input): `RenderPicture` with
a buffer id that has no registry entry (42) dereferences the NULL result
of `getObject` — the model crashes (`none`) instead of logging, skipping
and returning `SUCCESS` as the claim (and the surrounding null check)
intends.  By contrast, a buffer id that IS present but carries a NULL
payload pointer is logged and skipped and the call returns `SUCCESS`. -/
theorem claim_C9_renderPicture_missing_id_crash :
    nvRenderPicture drvOneContext 1 (fun _ => false) [42] = none
    ∧ nvRenderPicture drvNullPtrBuffer 1 (fun _ => false) [2]
        = some (.SUCCESS, [.skippedInvalid 2]) := by
  constructor <;> rfl

/-- `VA_RT_FORMAT_YUV420` (va.h, external ABI). -/
def VA_RT_FORMAT_YUV420 : Nat := 0x00000001

/-- Modelled from the spec: the `ROUND_UP` macro of `vabackend.h` (not in
`src/`); per the spec, widths/heights are rounded UP to the
chroma-subsampling multiple. -/
def ROUND_UP (x a : Nat) : Nat := ((x + a - 1) / a) * a

/-- The `switch (format)` of `nvCreateSurfaces2` (vabackend.c lines
848-883): map the RT format to `(nvFormat, chromaFormat, bitdepth)`,
`none` for an unknown format (`UNSUPPORTED_RT_FORMAT`). -/
def rtFormatToSurfaceParams (format : Nat) :
    Option (cudaVideoSurfaceFormat × cudaVideoChromaFormat × Nat) :=
  if format = VA_RT_FORMAT_YUV420 then some (.NV12, .C420, 8)
  else if format = VA_RT_FORMAT_YUV420_10 then some (.P016, .C420, 10)
  else if format = VA_RT_FORMAT_YUV420_12 then some (.P016, .C420, 12)
  else if format = VA_RT_FORMAT_YUV444 then some (.YUV444, .C444, 8)
  else if format = VA_RT_FORMAT_YUV444_10 then some (.YUV444_16Bit, .C444, 10)
  else if format = VA_RT_FORMAT_YUV444_12 then some (.YUV444_16Bit, .C444, 12)
  else none

/-- The allocation loop of `nvCreateSurfaces2` (vabackend.c lines
896-910): allocate `n` Surface objects with the given prototype fields,
returning the new registry and the ids written to `surfaces[]`. -/
def createSurfacesLoop (reg : Registry DrvPayload) (proto : NVSurface) :
    Nat → Registry DrvPayload × List Nat
  | 0 => (reg, [])
  | n + 1 =>
      let (obj, reg1) := allocateObject reg .OBJECT_TYPE_SURFACE (some (.surfacePayload proto))
      let (reg2, ids) := createSurfacesLoop reg1 proto n
      (reg2, obj.id :: ids)

/-- `nvCreateSurfaces2` (vabackend.c lines 836-914): map the format,
round the sizes up per chroma subsampling, allocate `numSurfaces` Surface
objects, and add `numSurfaces` to the driver's global `surfaceCount`.
`pushOk`/`popOk` are the `cuCtxPushCurrent`/`cuCtxPopCurrent` oracles (a
pop failure reports `OPERATION_FAILED` after the state was already
mutated). -/
def nvCreateSurfaces2 (drv : DriverState) (format width height numSurfaces : Nat)
    (pushOk popOk : Bool) : VAStatus × DriverState × List Nat :=
  match rtFormatToSurfaceParams format with
  | none => (.ERROR_UNSUPPORTED_RT_FORMAT, drv, [])
  | some (nvFormat, chromaFormat, bitdepth) =>
      let width :=
        match chromaFormat with
        | .C422 => ROUND_UP width 2
        | .C420 => ROUND_UP width 2
        | _ => width
      let height :=
        match chromaFormat with
        | .C420 => ROUND_UP height 2
        | _ => height
      if pushOk = false then (.ERROR_OPERATION_FAILED, drv, [])
      else
        let proto : NVSurface :=
          { width := width, height := height, format := nvFormat, pictureIdx := -1,
            bitDepth := bitdepth, context := none, chromaFormat := chromaFormat,
            progressiveFrame := false, topFieldFirst := false, secondField := false,
            decodeFailed := false, resolving := false, backingImage := false }
        let (reg, ids) := createSurfacesLoop drv.registry proto numSurfaces
        let drv := { registry := reg, surfaceCount := drv.surfaceCount + numSurfaces }
        if popOk = false then (.ERROR_OPERATION_FAILED, drv, ids)
        else (.SUCCESS, drv, ids)

/-- `nvDestroySurfaces` (vabackend.c lines 928-943): delete each listed
Surface object, then `surfaceCount = MAX(surfaceCount - num_surfaces, 0)`
(the `MAX` is the truncation `Nat` subtraction already performs). -/
def nvDestroySurfaces (drv : DriverState) (surfaceList : List Nat) : VAStatus × DriverState :=
  let reg := surfaceList.foldl (fun r sid => deleteObject r sid) drv.registry
  (.SUCCESS, { registry := reg, surfaceCount := drv.surfaceCount - surfaceList.length })

/-- Rewrite an object's payload in place (the C code mutates the config
through the pointer `getObjectPtr` returned, vabackend.c lines 980-982). -/
def updateObjectPayload (r : Registry α) (id : Nat) (payload : α) : Registry α :=
  { r with objects := r.objects.map (fun o => if o.id == id then { o with obj := some payload } else o) }

/-- The tail of `nvCreateContext` from vabackend.c line 984 on: compute
the Context's surface count (`renderTargets` count if nonzero else 32,
capped at 32), ZERO the driver's global `surfaceCount` (line 1017), then
create the lock (`lockOk`), the vendor decoder (`decoderOk`), allocate the
Context object and start the resolve thread (`threadOk`, whose failure
deletes the Context object again). -/
def createContextRest (drv : DriverState) (profile : VAProfile) (numRenderTargets : Nat)
    (lockOk decoderOk threadOk : Bool) : VAStatus × DriverState × Option Nat :=
  let surfaceCountCtx := if numRenderTargets > 0 then numRenderTargets else 32
  let _surfaceCountCtx := if surfaceCountCtx > 32 then 32 else surfaceCountCtx
  let drv1 := { drv with surfaceCount := 0 }
  if lockOk = false then (.ERROR_OPERATION_FAILED, drv1, none)
  else if decoderOk = false then (.ERROR_ALLOCATION_FAILED, drv1, none)
  else
    let (obj, reg) := allocateObject drv1.registry .OBJECT_TYPE_CONTEXT
      (some (.contextPayload profile))
    let drv2 := { drv1 with registry := reg }
    if threadOk = false then
      (.ERROR_OPERATION_FAILED, { drv2 with registry := deleteObject drv2.registry obj.id }, none)
    else (.SUCCESS, drv2, some obj.id)

/-- `nvCreateContext` (vabackend.c lines 945-1045): look up the Config
(`INVALID_CONFIG` when missing), resolve the codec (`codecFound`, else
`UNSUPPORTED_PROFILE`), inherit surface format/chroma/bit depth from the
first render target into the Config when render targets are supplied
(`INVALID_PARAMETER` when that lookup fails), then `createContextRest`.
The decoder-creation parameters (sizes, display area) only feed the
external `cuvidCreateDecoder` call and are not modelled. -/
def nvCreateContext (drv : DriverState) (configId : Nat) (renderTargets : List Nat)
    (codecFound lockOk decoderOk threadOk : Bool) : VAStatus × DriverState × Option Nat :=
  match getObjectPtr drv.registry configId with
  | some (.configPayload profile fields) =>
      if codecFound = false then (.ERROR_UNSUPPORTED_PROFILE, drv, none)
      else
        match renderTargets with
        | [] => createContextRest drv profile 0 lockOk decoderOk threadOk
        | rt :: _ =>
            match getObjectPtr drv.registry rt with
            | some (.surfacePayload s) =>
                let fields1 := { fields with
                  surfaceFormat := s.format,
                  chromaFormat := s.chromaFormat,
                  bitDepth := s.bitDepth }
                let drv1 := { drv with
                  registry := updateObjectPayload drv.registry configId
                    (.configPayload profile fields1) }
                createContextRest drv1 profile renderTargets.length lockOk decoderOk threadOk
            | _ => (.ERROR_INVALID_PARAMETER, drv, none)
  | _ => (.ERROR_INVALID_CONFIG, drv, none)

theorem createSurfacesLoop_count (proto : NVSurface) :
    ∀ (n : Nat) (reg : Registry DrvPayload),
      (createSurfacesLoop reg proto n).1.objects.countP
          (fun o => o.type == .OBJECT_TYPE_SURFACE)
        = reg.objects.countP (fun o => o.type == .OBJECT_TYPE_SURFACE) + n := by
  intro n
  induction n with
  | zero => intro reg; simp [createSurfacesLoop]
  | succ m ih =>
      intro reg
      simp only [createSurfacesLoop, allocateObject]
      rw [ih]
      simp [List.countP_append, List.countP_cons]
      omega

theorem countP_updateObjectPayload (r : Registry DrvPayload) (id : Nat) (p : DrvPayload) :
    (updateObjectPayload r id p).objects.countP (fun o => o.type == .OBJECT_TYPE_SURFACE)
      = r.objects.countP (fun o => o.type == .OBJECT_TYPE_SURFACE) := by
  show (r.objects.map _).countP _ = _
  induction r.objects with
  | nil => rfl
  | cons x xs ih =>
      simp only [List.map_cons, List.countP_cons, ih]
      by_cases hx : x.id == id
      · simp [hx]
      · simp [hx]

theorem createContextRest_success (drv : DriverState) (profile : VAProfile)
    (numRenderTargets : Nat) (lockOk decoderOk threadOk : Bool)
    (h : (createContextRest drv profile numRenderTargets lockOk decoderOk threadOk).1 = .SUCCESS) :
    (createContextRest drv profile numRenderTargets lockOk decoderOk threadOk).2.1.surfaceCount = 0
    ∧ surfaceObjCount (createContextRest drv profile numRenderTargets lockOk decoderOk threadOk).2.1
        = surfaceObjCount drv := by
  cases lockOk with
  | false => simp [createContextRest] at h
  | true =>
      cases decoderOk with
      | false => simp [createContextRest] at h
      | true =>
          cases threadOk with
          | false => simp [createContextRest, allocateObject] at h
          | true =>
              refine ⟨rfl, ?_⟩
              show (drv.registry.objects ++ _).countP _ = _
              simp [List.countP_append, surfaceObjCount]

theorem nvCreateSurfaces2_success_counts (d : DriverState) (format w hgt n : Nat)
    (hsucc : (nvCreateSurfaces2 d format w hgt n true true).1 = .SUCCESS) :
    (nvCreateSurfaces2 d format w hgt n true true).2.1.surfaceCount = d.surfaceCount + n
    ∧ surfaceObjCount (nvCreateSurfaces2 d format w hgt n true true).2.1
        = surfaceObjCount d + n := by
  simp only [nvCreateSurfaces2] at hsucc ⊢
  rcases hfmt : rtFormatToSurfaceParams format with _ | ⟨⟨nvFormat, chromaFormat, bitdepth⟩⟩
  · rw [hfmt] at hsucc
    simp at hsucc
  · refine ⟨rfl, ?_⟩
    show ((createSurfacesLoop d.registry _ n).1.objects.countP _ : Nat) = _
    rw [createSurfacesLoop_count]
    rfl

/-- C10: every successful `nvCreateContext` sets the driver's global
`surfaceCount` to 0 (vabackend.c line 1017) while deleting no Surface
object, so whenever Surface objects are live the driver's `surfaceCount`
no longer equals their number; a subsequent successful
`nvCreateSurfaces2(n)` adds `n` to both counts (which is what the claim
calls compensating). -/
theorem claim_C10_createContext_zeroes_surfaceCount
    (drv : DriverState) (configId : Nat) (renderTargets : List Nat)
    (codecFound lockOk decoderOk threadOk : Bool)
    (h : (nvCreateContext drv configId renderTargets codecFound lockOk decoderOk threadOk).1
          = .SUCCESS) :
    (nvCreateContext drv configId renderTargets codecFound lockOk decoderOk threadOk).2.1.surfaceCount = 0
    ∧ surfaceObjCount
        (nvCreateContext drv configId renderTargets codecFound lockOk decoderOk threadOk).2.1
      = surfaceObjCount drv
    ∧ (surfaceObjCount drv ≠ 0 →
        (nvCreateContext drv configId renderTargets codecFound lockOk decoderOk threadOk).2.1.surfaceCount
          ≠ surfaceObjCount
              (nvCreateContext drv configId renderTargets codecFound lockOk decoderOk threadOk).2.1)
    ∧ (∀ (d : DriverState) (format wdt hgt n : Nat),
        (nvCreateSurfaces2 d format wdt hgt n true true).1 = .SUCCESS →
        (nvCreateSurfaces2 d format wdt hgt n true true).2.1.surfaceCount = d.surfaceCount + n
        ∧ surfaceObjCount (nvCreateSurfaces2 d format wdt hgt n true true).2.1
            = surfaceObjCount d + n) := by
  have main :
      (nvCreateContext drv configId renderTargets codecFound lockOk decoderOk threadOk).2.1.surfaceCount = 0
      ∧ surfaceObjCount
          (nvCreateContext drv configId renderTargets codecFound lockOk decoderOk threadOk).2.1
        = surfaceObjCount drv := by
    rcases hcfg : getObjectPtr drv.registry configId with _ | p
    · simp [nvCreateContext, hcfg] at h
    · cases p with
      | surfacePayload s => simp [nvCreateContext, hcfg] at h
      | contextPayload q => simp [nvCreateContext, hcfg] at h
      | bufferPayload a b c dd ee => simp [nvCreateContext, hcfg] at h
      | configPayload profile fields =>
          cases codecFound with
          | false => simp [nvCreateContext, hcfg] at h
          | true =>
              cases renderTargets with
              | nil =>
                  have e : nvCreateContext drv configId [] true lockOk decoderOk threadOk
                      = createContextRest drv profile 0 lockOk decoderOk threadOk := by
                    simp [nvCreateContext, hcfg]
                  rw [e] at h ⊢
                  exact createContextRest_success drv profile 0 lockOk decoderOk threadOk h
              | cons rt rts =>
                  rcases hrt : getObjectPtr drv.registry rt with _ | q
                  · simp [nvCreateContext, hcfg, hrt] at h
                  · cases q with
                    | contextPayload q2 => simp [nvCreateContext, hcfg, hrt] at h
                    | configPayload p2 f2 => simp [nvCreateContext, hcfg, hrt] at h
                    | bufferPayload a b c dd ee => simp [nvCreateContext, hcfg, hrt] at h
                    | surfacePayload s =>
                        have e : nvCreateContext drv configId (rt :: rts) true lockOk decoderOk threadOk
                            = createContextRest
                                (DriverState.mk
                                  (updateObjectPayload drv.registry configId
                                    (DrvPayload.configPayload profile
                                      (NVConfigFields.mk s.chromaFormat s.format s.bitDepth)))
                                  drv.surfaceCount)
                                profile (rt :: rts).length lockOk decoderOk threadOk := by
                          simp [nvCreateContext, hcfg, hrt]
                        rw [e] at h ⊢
                        have hs := createContextRest_success _ profile (rt :: rts).length
                          lockOk decoderOk threadOk h
                        refine ⟨hs.1, ?_⟩
                        rw [hs.2]
                        exact countP_updateObjectPayload drv.registry configId _
  refine ⟨main.1, main.2, ?_, ?_⟩
  · intro hne
    rw [main.1, main.2]
    omega
  · intro d format wdt hgt n hsucc
    exact nvCreateSurfaces2_success_counts d format wdt hgt n hsucc

/-- A driver state with one Config object (id 1) and one Surface object
(id 2), for the C10 witness. -/
def drvOneConfigOneSurface : DriverState :=
  { registry := { objects := [{ id := 1, type := .OBJECT_TYPE_CONFIG,
                                obj := some (.configPayload .HEVCMain nvCreateConfigDefaults) },
                              { id := 2, type := .OBJECT_TYPE_SURFACE,
                                obj := some (.surfacePayload freshSurface) }],
                  nextObjId := 2 },
    surfaceCount := 1 }

/-- C10 (witness): on a driver with one live Surface (surfaceCount = 1),
a successful `CreateContext` leaves `surfaceCount = 0` while the Surface
object count stays 1. -/
theorem claim_C10_witness :
    (nvCreateContext drvOneConfigOneSurface 1 [] true true true true).2.1.surfaceCount = 0
    ∧ surfaceObjCount (nvCreateContext drvOneConfigOneSurface 1 [] true true true true).2.1
        = surfaceObjCount drvOneConfigOneSurface :=
  ⟨(claim_C10_createContext_zeroes_surfaceCount drvOneConfigOneSurface 1 [] true true true true
      (by decide)).1,
   (claim_C10_createContext_zeroes_surfaceCount drvOneConfigOneSurface 1 [] true true true true
      (by decide)).2.1⟩

/-- The resolve-ring part of `NVContext` for the ordering claim: the
`surfaceQueue` array (a total map over indices; only slots `< SQS` are
used), and the read/write indices.  Queue entries are surface ids. -/
structure QState where
  surfaceQueue : Nat → Nat
  surfaceQueueReadIdx : Nat
  surfaceQueueWriteIdx : Nat

/-- The zero-initialised ring of a fresh Context. -/
def qInit : QState :=
  { surfaceQueue := fun _ => 0, surfaceQueueReadIdx := 0, surfaceQueueWriteIdx := 0 }

/-- The producer step of `nvEndPicture` (vabackend.c lines 1244-1250):
store at `surfaceQueueWriteIdx`, post-increment, wrap at
`SURFACE_QUEUE_SIZE` (here the parameter `SQS`). -/
def enqStep (SQS : Nat) (st : QState) (s : Nat) : QState :=
  { surfaceQueue := fun i => if i = st.surfaceQueueWriteIdx then s else st.surfaceQueue i,
    surfaceQueueReadIdx := st.surfaceQueueReadIdx,
    surfaceQueueWriteIdx :=
      if st.surfaceQueueWriteIdx + 1 ≥ SQS then 0 else st.surfaceQueueWriteIdx + 1 }

/-- The consumer step of `resolveSurfaces` (vabackend.c lines 444-447):
read at `surfaceQueueReadIdx`, post-increment, wrap at
`SURFACE_QUEUE_SIZE`.  Returns the new state and the dequeued surface. -/
def deqStep (SQS : Nat) (st : QState) : QState × Nat :=
  ({ st with surfaceQueueReadIdx :=
       if st.surfaceQueueReadIdx + 1 ≥ SQS then 0 else st.surfaceQueueReadIdx + 1 },
   st.surfaceQueue st.surfaceQueueReadIdx)

/-- Events of one Context's resolve ring: an `EndPicture` enqueue, or the
resolve thread dequeuing one surface (with the `decodeFailed` flag it
observes and the `cuvidMapVideoFrame` outcome; `exportCudaPtr` runs
exactly when `decodeFailed = false` and `mapOk = true`, vabackend.c lines
448-470). -/
inductive QEvent where
  | enq (s : Nat)
  | deq (s : Nat) (decodeFailed : Bool) (mapOk : Bool)
  deriving DecidableEq

/-- One interleaved step of the producer (`nvEndPicture`) or the consumer
(the resolve thread).  The consumer's guard `readIdx ≠ writeIdx` is the
wait condition of vabackend.c line 436.  The producer enqueues
UNCONDITIONALLY, exactly as vabackend.c lines 1244-1248: there is no
full-check, so an enqueue may make `writeIdx` catch up to `readIdx`,
after which the consumer sees an empty ring and the stored surfaces are
silently lost or overwritten. -/
inductive QStep (SQS : Nat) : QState → QEvent → QState → Prop where
  | enq (st : QState) (s : Nat) :
      QStep SQS st (.enq s) (enqStep SQS st s)
  | deq (st : QState) (decodeFailed mapOk : Bool)
      (hne : st.surfaceQueueReadIdx ≠ st.surfaceQueueWriteIdx) :
      QStep SQS st (.deq (deqStep SQS st).2 decodeFailed mapOk) (deqStep SQS st).1

/-- A finite interleaving of producer and consumer steps. -/
inductive QTrace (SQS : Nat) : QState → List QEvent → QState → Prop where
  | nil (st : QState) : QTrace SQS st [] st
  | cons {st st1 st2 : QState} {e : QEvent} {es : List QEvent} :
      QStep SQS st e st1 → QTrace SQS st1 es st2 → QTrace SQS st (e :: es) st2

/-- The no-overrun operating condition on an event sequence run from
`st`: before every enqueue, advancing the write index must not make it
catch up to the read index (i.e. fewer than `SQS - 1` surfaces are
in flight).  This is the discipline the spec's fixed-capacity SPSC ring
(§3) presumes; the C producer does NOT enforce it. -/
def NoOverrun (SQS : Nat) : QState → List QEvent → Prop
  | _, [] => True
  | st, .enq s :: es =>
      ((if st.surfaceQueueWriteIdx + 1 ≥ SQS then 0 else st.surfaceQueueWriteIdx + 1)
          ≠ st.surfaceQueueReadIdx)
      ∧ NoOverrun SQS (enqStep SQS st s) es
  | st, .deq _ _ _ :: es => NoOverrun SQS (deqStep SQS st).1 es

/-- The surfaces enqueued by `EndPicture`, in order. -/
def enqHistory : List QEvent → List Nat
  | [] => []
  | .enq s :: es => s :: enqHistory es
  | .deq _ _ _ :: es => enqHistory es

/-- The surfaces dequeued by the resolve thread, in order. -/
def deqHistory : List QEvent → List Nat
  | [] => []
  | .enq _ :: es => deqHistory es
  | .deq s _ _ :: es => s :: deqHistory es

/-- The surfaces handed to `exportCudaPtr`, in order (dequeued with
`decodeFailed = false` and a successful map). -/
def exportHistory : List QEvent → List Nat
  | [] => []
  | .deq s false true :: es => s :: exportHistory es
  | .deq _ _ _ :: es => exportHistory es
  | .enq _ :: es => exportHistory es

/-- Position of logical offset `i` in the ring (indices stay below
`2 * SQS` here, so one conditional subtraction wraps). -/
def wrapIdx (SQS i : Nat) : Nat := if i < SQS then i else i - SQS

/-- Ring invariant tying a queue state to the list `pending` of stored,
not yet dequeued surfaces: indices in range, fewer than `SQS` pending
entries, the index distance equals the pending count, and slot `k` past
the read index holds the `k`-th pending surface. -/
def QInv (SQS : Nat) (st : QState) (pending : List Nat) : Prop :=
  st.surfaceQueueReadIdx < SQS
  ∧ st.surfaceQueueWriteIdx < SQS
  ∧ pending.length < SQS
  ∧ (if st.surfaceQueueReadIdx ≤ st.surfaceQueueWriteIdx
     then st.surfaceQueueWriteIdx - st.surfaceQueueReadIdx
     else SQS + st.surfaceQueueWriteIdx - st.surfaceQueueReadIdx) = pending.length
  ∧ ∀ k (hk : k < pending.length),
      st.surfaceQueue (wrapIdx SQS (st.surfaceQueueReadIdx + k)) = pending[k]

theorem QInv_init (SQS : Nat) (hS : 0 < SQS) : QInv SQS qInit [] := by
  refine ⟨hS, hS, hS, by simp [qInit], ?_⟩
  intro k hk
  simp at hk

theorem QInv_enq (SQS : Nat) (st : QState) (s : Nat) (pending : List Nat)
    (hinv : QInv SQS st pending)
    (hroom : (if st.surfaceQueueWriteIdx + 1 ≥ SQS then 0 else st.surfaceQueueWriteIdx + 1)
               ≠ st.surfaceQueueReadIdx) :
    QInv SQS (enqStep SQS st s) (pending ++ [s]) := by
  obtain ⟨hr, hw, hl, hcount, hslots⟩ := hinv
  obtain ⟨q, r, w⟩ := st
  simp only at hr hw hcount hslots hroom
  simp only [QInv, enqStep, List.length_append, List.length_singleton]
  by_cases hge : w + 1 ≥ SQS
  · rw [if_pos hge] at hroom ⊢
    by_cases hrw : r ≤ w
    · rw [if_pos hrw] at hcount
      have hL1 : pending.length + 1 < SQS := by omega
      refine ⟨hr, by omega, hL1, by rw [if_neg (by omega : ¬ r ≤ 0)]; omega, ?_⟩
      intro k hk
      by_cases hkL : k < pending.length
      · have hpos : wrapIdx SQS (r + k) ≠ w := by
          simp only [wrapIdx]; split_ifs <;> omega
        simp only [hpos, if_neg hpos]
        rw [hslots k hkL]
        exact (List.getElem_append_left hkL).symm
      · have hkL' : k = pending.length := by omega
        subst hkL'
        have hpos : wrapIdx SQS (r + pending.length) = w := by
          simp only [wrapIdx]; split_ifs <;> omega
        rw [hpos, if_pos rfl]
        simp
    · rw [if_neg hrw] at hcount
      omega
  · rw [if_neg hge] at hroom ⊢
    by_cases hrw : r ≤ w
    · rw [if_pos hrw] at hcount
      have hL1 : pending.length + 1 < SQS := by omega
      refine ⟨hr, by omega, hL1, by rw [if_pos (by omega : r ≤ w + 1)]; omega, ?_⟩
      intro k hk
      by_cases hkL : k < pending.length
      · have hpos : wrapIdx SQS (r + k) ≠ w := by
          simp only [wrapIdx]; split_ifs <;> omega
        simp only [if_neg hpos]
        rw [hslots k hkL]
        exact (List.getElem_append_left hkL).symm
      · have hkL' : k = pending.length := by omega
        subst hkL'
        have hpos : wrapIdx SQS (r + pending.length) = w := by
          simp only [wrapIdx]; split_ifs <;> omega
        rw [hpos, if_pos rfl]
        simp
    · rw [if_neg hrw] at hcount
      have hL1 : pending.length + 1 < SQS := by omega
      refine ⟨hr, by omega, hL1, by rw [if_neg (by omega : ¬ r ≤ w + 1)]; omega, ?_⟩
      intro k hk
      by_cases hkL : k < pending.length
      · have hpos : wrapIdx SQS (r + k) ≠ w := by
          simp only [wrapIdx]; split_ifs <;> omega
        simp only [if_neg hpos]
        rw [hslots k hkL]
        exact (List.getElem_append_left hkL).symm
      · have hkL' : k = pending.length := by omega
        subst hkL'
        have hpos : wrapIdx SQS (r + pending.length) = w := by
          simp only [wrapIdx]; split_ifs <;> omega
        rw [hpos, if_pos rfl]
        simp

theorem QInv_deq (SQS : Nat) (st : QState) (pending : List Nat)
    (hinv : QInv SQS st pending)
    (hne : st.surfaceQueueReadIdx ≠ st.surfaceQueueWriteIdx) :
    ∃ x rest, pending = x :: rest
      ∧ (deqStep SQS st).2 = x
      ∧ QInv SQS (deqStep SQS st).1 rest := by
  obtain ⟨hr, hw, hl, hcount, hslots⟩ := hinv
  obtain ⟨q, r, w⟩ := st
  simp only at hr hw hcount hslots hne
  have hpos : 0 < pending.length := by
    by_cases hrw : r ≤ w
    · rw [if_pos hrw] at hcount; omega
    · rw [if_neg hrw] at hcount; omega
  obtain ⟨x, rest, hx⟩ : ∃ x rest, pending = x :: rest := by
    cases pending with
    | nil => simp at hpos
    | cons a t => exact ⟨a, t, rfl⟩
  subst hx
  simp only [List.length_cons] at hcount hl
  refine ⟨x, rest, rfl, ?_, ?_⟩
  · have h0 := hslots 0 (by simp)
    simp only [wrapIdx, Nat.add_zero, if_pos hr, List.getElem_cons_zero] at h0
    exact h0
  · simp only [QInv, deqStep]
    by_cases hge : r + 1 ≥ SQS
    · rw [if_pos hge]
      refine ⟨by omega, hw, by omega, ?_, ?_⟩
      · rw [if_pos (by omega : 0 ≤ w)]
        by_cases hrw : r ≤ w
        · rw [if_pos hrw] at hcount; omega
        · rw [if_neg hrw] at hcount; omega
      · intro k hk
        have hkey := hslots (k + 1) (by simp; omega)
        have heq : wrapIdx SQS (0 + k) = wrapIdx SQS (r + (k + 1)) := by
          simp only [wrapIdx]; split_ifs <;> omega
        rw [heq, hkey]
        simp
    · rw [if_neg hge]
      refine ⟨by omega, hw, by omega, ?_, ?_⟩
      · by_cases hrw : r ≤ w
        · rw [if_pos hrw] at hcount
          by_cases hrw1 : r + 1 ≤ w
          · rw [if_pos hrw1]; omega
          · rw [if_neg hrw1]; omega
        · rw [if_neg hrw] at hcount
          rw [if_neg (by omega : ¬ r + 1 ≤ w)]
          omega
      · intro k hk
        have hkey := hslots (k + 1) (by simp; omega)
        have heq : wrapIdx SQS (r + 1 + k) = wrapIdx SQS (r + (k + 1)) := by
          simp only [wrapIdx]; split_ifs <;> omega
        rw [heq, hkey]
        simp

theorem QTrace_fifo (SQS : Nat) {st final : QState} {es : List QEvent}
    (ht : QTrace SQS st es final) :
    ∀ pending : List Nat, QInv SQS st pending → NoOverrun SQS st es →
      ∃ pending2, QInv SQS final pending2
        ∧ pending ++ enqHistory es = deqHistory es ++ pending2 := by
  induction ht with
  | nil st => intro pending hinv _; exact ⟨pending, hinv, by simp [enqHistory, deqHistory]⟩
  | cons hstep htrace ih =>
      intro pending hinv hno
      cases hstep with
      | enq s =>
          obtain ⟨hroom, hno2⟩ := hno
          obtain ⟨p2, hp2, heq⟩ := ih (pending ++ [s]) (QInv_enq SQS _ s pending hinv hroom) hno2
          refine ⟨p2, hp2, ?_⟩
          simp only [enqHistory, deqHistory]
          rw [← heq]
          simp
      | deq decodeFailed mapOk hne =>
          obtain ⟨x, rest, hx, hdeq, hinv2⟩ := QInv_deq SQS _ pending hinv hne
          obtain ⟨p2, hp2, heq⟩ := ih rest hinv2 hno
          refine ⟨p2, hp2, ?_⟩
          simp only [enqHistory, deqHistory, hdeq, hx]
          simp [heq]

theorem exportHistory_sublist_deqHistory (es : List QEvent) :
    List.Sublist (exportHistory es) (deqHistory es) := by
  induction es with
  | nil => simp [exportHistory, deqHistory]
  | cons e rest ih =>
      cases e with
      | enq s => simpa [exportHistory, deqHistory] using ih
      | deq s decodeFailed mapOk =>
          cases decodeFailed with
          | false =>
              cases mapOk with
              | false =>
                  simp only [exportHistory, deqHistory]
                  exact ih.cons s
              | true =>
                  simp only [exportHistory, deqHistory]
                  exact ih.cons₂ s
          | true =>
              simp only [exportHistory, deqHistory]
              exact ih.cons s

/-- A concrete event sequence on a ring of capacity 2 in which the
producer overruns the ring: enqueue 1, resolve it, then enqueue 2, 3 and
4 with the resolve thread stalled.  The third of these enqueues makes the
write index catch up to the read index and the fourth overwrites the
slot holding 2. -/
def overrunTraceC5 : List QEvent :=
  [QEvent.enq 1, QEvent.deq 1 false true, QEvent.enq 2, QEvent.enq 3,
   QEvent.enq 4, QEvent.deq 4 false true]

/-- C5 (counterexample): the claim fails without a no-overrun condition.
Along `overrunTraceC5` — a legal interleaving of the unguarded producer
(vabackend.c lines 1244-1248 perform no full-check) and the guarded
consumer — the enqueue order is 1, 2, 3, 4 but the resolve thread
dequeues and exports only 1 and then 4: the dequeue history is not a
prefix of the enqueue history, and surface 3 (enqueued before 4, with
`EndPicture` returning normally) is never dequeued nor handed to
`exportCudaPtr` although the later surface 4 is — so
`EndPicture(3)` happens-before `EndPicture(4)` yet no
`exportCudaPtr(3, …)` precedes `exportCudaPtr(4, …)`. -/
theorem claim_C5_counterexample :
    QTrace 2 qInit overrunTraceC5
      (deqStep 2 (enqStep 2 (enqStep 2 (enqStep 2 (deqStep 2 (enqStep 2 qInit 1)).1 2) 3) 4)).1
    ∧ enqHistory overrunTraceC5 = [1, 2, 3, 4]
    ∧ deqHistory overrunTraceC5 = [1, 4]
    ∧ exportHistory overrunTraceC5 = [1, 4]
    ∧ deqHistory overrunTraceC5
        ≠ (enqHistory overrunTraceC5).take (deqHistory overrunTraceC5).length
    ∧ 3 ∈ enqHistory overrunTraceC5
    ∧ 3 ∉ deqHistory overrunTraceC5
    ∧ 3 ∉ exportHistory overrunTraceC5
    ∧ 4 ∈ exportHistory overrunTraceC5 := by
  refine ⟨?_, rfl, rfl, rfl, by decide, by decide, by decide, by decide, by decide⟩
  exact QTrace.cons (QStep.enq qInit 1)
    (QTrace.cons (QStep.deq (enqStep 2 qInit 1) false true (by decide))
      (QTrace.cons (QStep.enq (deqStep 2 (enqStep 2 qInit 1)).1 2)
        (QTrace.cons (QStep.enq (enqStep 2 (deqStep 2 (enqStep 2 qInit 1)).1 2) 3)
          (QTrace.cons
            (QStep.enq (enqStep 2 (enqStep 2 (deqStep 2 (enqStep 2 qInit 1)).1 2) 3) 4)
            (QTrace.cons
              (QStep.deq (enqStep 2 (enqStep 2 (enqStep 2 (deqStep 2 (enqStep 2 qInit 1)).1 2) 3) 4)
                false true (by decide))
              (QTrace.nil _))))))

/-- C5 (amended): along any interleaving of `EndPicture` enqueues and
resolve-thread steps that starts from a fresh Context ring and satisfies
the no-overrun operating condition `NoOverrun` (fewer than `SQS - 1`
surfaces in flight at every enqueue — the discipline the spec's
fixed-capacity SPSC ring presumes but the C producer does not enforce),
the resolve thread dequeues surfaces in exactly enqueue order (the
dequeue history is a prefix of the enqueue history), and the sequence of
`exportCudaPtr` calls is an order-preserving subsequence of both; hence
if `EndPicture(S1)` precedes `EndPicture(S2)` and both are exported,
`exportCudaPtr(S1)` precedes `exportCudaPtr(S2)`.  Without `NoOverrun`
the ordering fails (see the counterexample). -/
theorem claim_C5_resolve_order_amended (SQS : Nat) (hS : 0 < SQS) (es : List QEvent)
    (final : QState) (ht : QTrace SQS qInit es final)
    (hno : NoOverrun SQS qInit es) :
    (∃ rest, enqHistory es = deqHistory es ++ rest)
    ∧ List.Sublist (deqHistory es) (enqHistory es)
    ∧ List.Sublist (exportHistory es) (enqHistory es) := by
  obtain ⟨p2, _, heq⟩ := QTrace_fifo SQS ht [] (QInv_init SQS hS) hno
  simp only [List.nil_append] at heq
  refine ⟨⟨p2, heq⟩, ?_, ?_⟩
  · rw [heq]
    exact List.sublist_append_left _ _
  · refine (exportHistory_sublist_deqHistory es).trans ?_
    rw [heq]
    exact List.sublist_append_left _ _

/-- C5 (witness): the amended ordering theorem applied to the concrete
in-capacity trace "enqueue surface 7, then resolve it" on a ring of
capacity 2. -/
theorem claim_C5_witness :
    (∃ rest, enqHistory [QEvent.enq 7, QEvent.deq 7 false true]
        = deqHistory [QEvent.enq 7, QEvent.deq 7 false true] ++ rest)
    ∧ List.Sublist (deqHistory [QEvent.enq 7, QEvent.deq 7 false true])
        (enqHistory [QEvent.enq 7, QEvent.deq 7 false true])
    ∧ List.Sublist (exportHistory [QEvent.enq 7, QEvent.deq 7 false true])
        (enqHistory [QEvent.enq 7, QEvent.deq 7 false true]) :=
  claim_C5_resolve_order_amended 2 (by decide) [QEvent.enq 7, QEvent.deq 7 false true]
    (deqStep 2 (enqStep 2 qInit 7)).1
    (QTrace.cons (QStep.enq qInit 7)
      (QTrace.cons (QStep.deq (enqStep 2 qInit 7) false true (by decide))
        (QTrace.nil _)))
    ⟨by decide, trivial⟩
